import Mathlib

/-!
# Xpedite framework control plane: session arbitration, profile state, lifecycle

A shallow embedding of `SessionManager.H`, `Profile.H`, `ProfileRequest.H`,
`Framework.H` and `Framework.C`, with the properties proved about it.

Collaborators whose code is not part of the sources at hand (`LocalSession`,
`RemoteSession`, `Handler`, the probe registry, the PMU controller) appear as
abstract state with an interface record of operations.
-/

namespace Xpedite

/-! ## SessionManager -/

/-- `SessionManager::SessionType`. -/
inductive SessionType
  | DORMANT
  | REMOTE
  | LOCAL
  deriving DecidableEq, Repr

/-- `MilliSeconds`: a signed tick count of milliseconds. -/
abbrev MilliSeconds := Int

/-! ## Requests -/

/-- `probes::ProbeKey` as `Profile.H` reads it: `name()`, `file()` and `line()`. The order
that `std::set<ProbeKey>` sorts by is declared in `ProbeKey.H`, outside the sources at
hand; wherever it matters it is an arbitrary `LinearOrder ProbeKey`. -/
structure ProbeKey where
  name : String
  file : String
  line : Nat

/-- The requests `Framework.C` hands to `SessionManager::execute`, with their constructor
arguments. `ρ` is `PMUCtlRequest` (declared in `EventSet.h`, outside the sources). -/
inductive Request (ρ : Type)
  | probeActivation (probes : List ProbeKey)
  | perfEventsActivation (request : ρ)
  | profileActivation (samplesFilePattern : String) (pollInterval : MilliSeconds)
      (samplesDataCapacity : Nat)
  | profileDeactivation

/-- Observable calls made by one `SessionManager::poll` tick, in program order. -/
inductive PollEvent
  | localPoll (gate work : Bool)
  | remotePoll (gate work : Bool)
  | handlerPoll
  deriving DecidableEq, Repr

/-- The collaborators a `SessionManager` drives (`_localSession`, `_remoteSession`,
`_handler`). Their code is not in `SessionManager.H`; `σ` is their joint state and each
operation is an arbitrary state transformer. -/
structure SessionOps (σ ρ : Type) where
  /-- `LocalSession::poll(canAcceptRequest_)`. -/
  localPoll : σ → Bool → σ × Bool
  /-- `RemoteSession::poll(canAcceptRequest_)`. -/
  remotePoll : σ → Bool → σ × Bool
  /-- `Handler::poll()`. -/
  handlerPoll : σ → σ
  /-- `Handler::pollInterval()`. -/
  handlerPollInterval : σ → MilliSeconds
  /-- `Handler::isProfileActive()`. -/
  handlerIsProfileActive : σ → Bool
  /-- `LocalSession::execute(request_, timeout_)`: the new state, the returned flag and
  the text of `request_->response().errors()` once the call is back. -/
  localExecute : σ → Request ρ → MilliSeconds → σ × Bool × String

/-- A `SessionManager` object: the collaborators' state and `_sessionType`. -/
structure SessionManager (σ : Type) where
  env : σ
  sessionType : SessionType

/-- The constructor: `_sessionType {DORMANT}`. -/
def SessionManager.new {σ : Type} (env : σ) : SessionManager σ :=
  { env := env, sessionType := .DORMANT }

/-- `SessionManager::isProfileActive`. -/
def SessionManager.isProfileActive {σ ρ : Type} (E : SessionOps σ ρ) (m : SessionManager σ) : Bool :=
  E.handlerIsProfileActive m.env

/-- `SessionManager::pollInterval`. -/
def SessionManager.pollInterval {σ ρ : Type} (E : SessionOps σ ρ) (m : SessionManager σ) :
    MilliSeconds :=
  if m.sessionType = .DORMANT then 500 else E.handlerPollInterval m.env

/-- Lines 62-67 of `SessionManager::poll`: the local session step. `ndebug` says whether
the build defines `NDEBUG` (then `assert` is a no-op); a failing `assert` aborts, which is
the result `none`. -/
def SessionManager.pollLocal {σ ρ : Type} (E : SessionOps σ ρ) (ndebug : Bool)
    (m : SessionManager σ) : List PollEvent × Option (SessionManager σ) :=
  let gate : Bool := decide (m.sessionType = .DORMANT ∨ m.sessionType = .LOCAL)
  let r := E.localPoll m.env gate
  if r.2 then
    if ndebug ∨ (m.sessionType = .DORMANT ∨ m.sessionType = .LOCAL) then
      ([.localPoll gate true], some { env := r.1, sessionType := .LOCAL })
    else
      ([.localPoll gate true], none)
  else if m.sessionType = .LOCAL then
    ([.localPoll gate false], some { env := r.1, sessionType := .DORMANT })
  else
    ([.localPoll gate false], some { env := r.1, sessionType := m.sessionType })

/-- Lines 69-74 of `SessionManager::poll`: the remote session step. -/
def SessionManager.pollRemote {σ ρ : Type} (E : SessionOps σ ρ) (ndebug : Bool)
    (m : SessionManager σ) : List PollEvent × Option (SessionManager σ) :=
  let gate : Bool := decide (m.sessionType = .DORMANT ∨ m.sessionType = .REMOTE)
  let r := E.remotePoll m.env gate
  if r.2 then
    if ndebug ∨ (m.sessionType = .DORMANT ∨ m.sessionType = .REMOTE) then
      ([.remotePoll gate true], some { env := r.1, sessionType := .REMOTE })
    else
      ([.remotePoll gate true], none)
  else if m.sessionType = .REMOTE then
    ([.remotePoll gate false], some { env := r.1, sessionType := .DORMANT })
  else
    ([.remotePoll gate false], some { env := r.1, sessionType := m.sessionType })

/-- Lines 76-78 of `SessionManager::poll`: drain samples unless dormant. -/
def SessionManager.pollHandler {σ ρ : Type} (E : SessionOps σ ρ) (m : SessionManager σ) :
    List PollEvent × SessionManager σ :=
  if m.sessionType ≠ .DORMANT then
    ([.handlerPoll], { m with env := E.handlerPoll m.env })
  else
    ([], m)

/-- `SessionManager::poll`: the three steps in order. The first component lists the calls
made; the second is the manager afterwards, or `none` when an `assert` aborted the tick. -/
def SessionManager.poll {σ ρ : Type} (E : SessionOps σ ρ) (ndebug : Bool)
    (m : SessionManager σ) : List PollEvent × Option (SessionManager σ) :=
  match SessionManager.pollLocal E ndebug m with
  | (t1, none) => (t1, none)
  | (t1, some m1) =>
    match SessionManager.pollRemote E ndebug m1 with
    | (t2, none) => (t1 ++ t2, none)
    | (t2, some m2) =>
      let r := SessionManager.pollHandler E m2
      (t1 ++ t2 ++ r.1, some r.2)

/-- `SessionManager::execute`: a local request, with the hard-coded timeout of zero. The
result is the manager afterwards, the flag returned, and `response().errors()`. -/
def SessionManager.execute {σ ρ : Type} (E : SessionOps σ ρ) (m : SessionManager σ)
    (request : Request ρ) : SessionManager σ × Bool × String :=
  let timeout : MilliSeconds := 0
  let r := E.localExecute m.env request timeout
  ({ m with env := r.1 }, r.2.1, r.2.2)

/-! ## SessionGuard (`Framework.H`) -/

/-- `SessionGuard`: the two data members. -/
structure SessionGuard where
  isAlive : Bool
  errors : String
  deriving DecidableEq, Repr

/-- `explicit SessionGuard(bool isAlive_)`. -/
def SessionGuard.ofAlive (isAlive : Bool) : SessionGuard :=
  { isAlive := isAlive, errors := "" }

/-- `explicit SessionGuard(std::string errors_)`. -/
def SessionGuard.ofErrors (errors : String) : SessionGuard :=
  { isAlive := false, errors := errors }

/-- `SessionGuard()`: delegates to the error constructor. -/
def SessionGuard.invalid : SessionGuard :=
  SessionGuard.ofErrors "Invalid Session"

/-- `SessionGuard(SessionGuard&& other_)`: the new guard and what is left in `other_`. -/
def SessionGuard.moveConstruct (other : SessionGuard) : SessionGuard × SessionGuard :=
  ({ isAlive := other.isAlive, errors := other.errors },
   { isAlive := false, errors := "Invalid Session" })

/-- `operator=(SessionGuard&& other_)`: the two swaps; `*this` first, then `other_`. -/
def SessionGuard.moveAssign (self other : SessionGuard) : SessionGuard × SessionGuard :=
  ({ isAlive := other.isAlive, errors := other.errors },
   { isAlive := self.isAlive, errors := self.errors })

/-! ## Framework (`Framework.C`) -/

/-- Modelled from the spec: `ProfileInfo` (`ProfileInfo.H` is not among the sources), "the
probes to enable, PMU request descriptor, and `samplesDataCapacity`". -/
structure ProfileInfo (ρ : Type) where
  probes : List ProbeKey
  pmuRequest : ρ
  samplesDataCapacity : Nat

/-- The `Framework` object: `_sessionManager` and `_canRun` (the app-info stream plays no
part in the functions embedded here). -/
structure Framework (σ : Type) where
  sessionManager : SessionManager σ
  canRun : Bool

/-- The `Framework` constructor: a fresh session manager and `_canRun {true}`. -/
def Framework.new {σ : Type} (env : σ) : Framework σ :=
  { sessionManager := SessionManager.new env, canRun := true }

/-- `Framework::endProfile`: executes one `ProfileDeactivationRequest`; a failure is only
logged. The second component lists the requests executed. -/
def Framework.endProfile {σ ρ : Type} (E : SessionOps σ ρ) (fw : Framework σ) :
    Framework σ × List (Request ρ) :=
  let r := fw.sessionManager.execute E .profileDeactivation
  ({ fw with sessionManager := r.1 }, [.profileDeactivation])

/-- The body of `SessionGuard::~SessionGuard` when the global `framework` pointer holds
`fw`: the framework and the guard afterwards, and the requests executed. -/
def SessionGuard.destroyWith {σ ρ : Type} (E : SessionOps σ ρ) (fw : Framework σ)
    (g : SessionGuard) : Framework σ × SessionGuard × List (Request ρ) :=
  if g.isAlive then
    let r := fw.endProfile E
    (r.1, { g with isAlive := false }, r.2)
  else
    (fw, g, [])

/-- `SessionGuard::~SessionGuard`: `if(_isAlive && framework)`, where `framework` is the
global pointer, empty (`none`) until a framework is installed. -/
def SessionGuard.destroy {σ ρ : Type} (E : SessionOps σ ρ) (framework : Option (Framework σ))
    (g : SessionGuard) : Option (Framework σ) × SessionGuard × List (Request ρ) :=
  match framework with
  | some fw =>
    let r := SessionGuard.destroyWith E fw g
    (some r.1, r.2.1, r.2.2)
  | none => (none, g, [])

/-- Lines 151-160 of `Framework::beginProfile`: the profile activation request, run while
the local `guard` is in scope. On failure the error guard is returned and `guard` is
destroyed on the way out; on success the result is move-constructed from `guard`, whose
destructor then finds it not alive. -/
def Framework.activateProfile {σ ρ : Type} (E : SessionOps σ ρ) (samplesFileTemplate : String)
    (fw : Framework σ) (guard : SessionGuard) (info : ProfileInfo ρ) :
    Framework σ × SessionGuard × List (Request ρ) :=
  let profileActivationRequest : Request ρ :=
    .profileActivation samplesFileTemplate 1 info.samplesDataCapacity
  let r := fw.sessionManager.execute E profileActivationRequest
  let fw1 : Framework σ := { fw with sessionManager := r.1 }
  if ¬ r.2.1 then
    let result := SessionGuard.ofErrors ("xpedite failed to activate profile - " ++ r.2.2)
    let d := SessionGuard.destroyWith E fw1 guard
    (d.1, result, profileActivationRequest :: d.2.2)
  else
    let mv := SessionGuard.moveConstruct guard
    let d := SessionGuard.destroyWith E fw1 mv.2
    (d.1, mv.1, profileActivationRequest :: d.2.2)

/-- `Framework::beginProfile`. `this` is the object the global `framework` pointer holds
(the constructor is private and `initializeOnce` stores the only instance there), so the
destructor of the local `guard` runs `SessionGuard.destroyWith` on it. `eventCount` and
`samplesFileTemplate` stand for `eventCount(&pmuRequest)` and
`StorageMgr::buildSamplesFileTemplate()`, both declared outside the sources. The result is
the framework afterwards, the guard returned, and the requests executed in order. -/
def Framework.beginProfile {σ ρ : Type} (E : SessionOps σ ρ) (eventCount : ρ → Nat)
    (samplesFileTemplate : String) (this : Framework σ) (info : ProfileInfo ρ) :
    Framework σ × SessionGuard × List (Request ρ) :=
  let probeActivationRequest : Request ρ := .probeActivation info.probes
  let r := this.sessionManager.execute E probeActivationRequest
  let fw1 : Framework σ := { this with sessionManager := r.1 }
  if ¬ r.2.1 then
    (fw1, SessionGuard.ofErrors ("xpedite failed to enable probes - " ++ r.2.2),
      [probeActivationRequest])
  else
    let guard := SessionGuard.ofAlive true
    if eventCount info.pmuRequest ≠ 0 then
      let perfEventsRequest : Request ρ := .perfEventsActivation info.pmuRequest
      let r2 := fw1.sessionManager.execute E perfEventsRequest
      let fw2 : Framework σ := { fw1 with sessionManager := r2.1 }
      if ¬ r2.2.1 then
        let result := SessionGuard.ofErrors ("xpedite failed to enable perf events - " ++ r2.2.2)
        let d := SessionGuard.destroyWith E fw2 guard
        (d.1, result, probeActivationRequest :: perfEventsRequest :: d.2.2)
      else
        let a := Framework.activateProfile E samplesFileTemplate fw2 guard info
        (a.1, a.2.1, probeActivationRequest :: perfEventsRequest :: a.2.2)
    else
      let a := Framework.activateProfile E samplesFileTemplate fw1 guard info
      (a.1, a.2.1, probeActivationRequest :: a.2.2)

/-- `Framework::isRunning`. -/
def Framework.isRunning {σ : Type} (fw : Framework σ) : Bool :=
  fw.canRun

/-- `Framework::halt`: `_canRun.exchange(false)`; the previous value is returned, and
`frameworkThread.join()` is called exactly when it was true. The join only waits for the
background thread and writes no member of the object. -/
def Framework.halt {σ : Type} (fw : Framework σ) : Framework σ × Bool :=
  let isRunning := fw.canRun
  ({ fw with canRun := false }, isRunning)

/-- The free function `profile`. -/
def profile {σ ρ : Type} (E : SessionOps σ ρ) (eventCount : ρ → Nat)
    (samplesFileTemplate : String) (framework : Option (Framework σ)) (info : ProfileInfo ρ) :
    Option (Framework σ) × SessionGuard × List (Request ρ) :=
  match framework with
  | some fw =>
    let r := fw.beginProfile E eventCount samplesFileTemplate info
    (some r.1, r.2.1, r.2.2)
  | none => (none, SessionGuard.invalid, [])

/-- The free function `isRunning`. -/
def isRunning {σ : Type} (framework : Option (Framework σ)) : Bool :=
  match framework with
  | some fw => fw.isRunning
  | none => false

/-- The free function `halt`. -/
def halt {σ : Type} (framework : Option (Framework σ)) : Option (Framework σ) × Bool :=
  match framework with
  | some fw =>
    let r := fw.halt
    (some r.1, r.2)
  | none => (none, false)

/-! ## Profile (`Profile.H`) -/

/-- `probes::Command`, as far as `Profile.H` uses it. -/
inductive Command
  | ENABLE
  | DISABLE
  deriving DecidableEq, Repr

/-- Calls a `Profile` makes on the probe registry and on the PMU controller. A null
`probeName` is `none`. `ρ` is `PMUCtlRequest`. -/
inductive Effect (ρ : Type)
  | probeCtl (cmd : Command) (file : String) (line : Nat) (probeName : Option String)
  | enableGenericPmc (count : Int)
  | disableGenericPmc
  | enableFixedPmc (index : Nat)
  | disableFixedPmc
  | enablePerfEvents (request : ρ)
  | disablePerfEvents

/-- The PMU controller `pmu::pmuCtl()` (declared in `PMUCtl.H`, outside the sources): `π`
is its state and each member function an arbitrary transformer or query. -/
structure PMUOps (π ρ : Type) where
  perfEventsEnabled : π → Bool
  genericPmcCount : π → Nat
  fixedPmcCount : π → Nat
  enableGenericPmc : π → Int → π
  disableGenericPmc : π → π
  enableFixedPmc : π → Nat → π
  disableFixedPmc : π → π
  enablePerfEvents : π → ρ → π × Bool
  disablePerfEvents : π → π

/-- `Profile`: the set `_activeProbes`. -/
structure Profile where
  activeProbes : Finset ProbeKey

/-- A freshly constructed `Profile`: no probe recorded. -/
def Profile.new : Profile :=
  { activeProbes := ∅ }

/-- `Profile::activateProbe`: the ENABLE command, then `_activeProbes.emplace(key_)`. -/
def Profile.activateProbe {ρ : Type} [DecidableEq ProbeKey] (p : Profile) (key : ProbeKey) :
    Profile × List (Effect ρ) :=
  let probeName : Option String := if key.name = "" then none else some key.name
  ({ activeProbes := insert key p.activeProbes },
   [.probeCtl .ENABLE key.file key.line probeName])

/-- `Profile::deactivateProbe`: `_activeProbes.erase(key_)`, then the DISABLE command. -/
def Profile.deactivateProbe {ρ : Type} [DecidableEq ProbeKey] (p : Profile) (key : ProbeKey) :
    Profile × List (Effect ρ) :=
  let probeName : Option String := if key.name = "" then none else some key.name
  ({ activeProbes := p.activeProbes.erase key },
   [.probeCtl .DISABLE key.file key.line probeName])

/-- `Profile::enableGpPMU`. -/
def Profile.enableGpPMU {π ρ : Type} (P : PMUOps π ρ) (u : π) (count : Int) :
    π × List (Effect ρ) :=
  (P.enableGenericPmc u count, [.enableGenericPmc count])

/-- `Profile::disableGpPMU`. -/
def Profile.disableGpPMU {π ρ : Type} (P : PMUOps π ρ) (u : π) : π × List (Effect ρ) :=
  if P.genericPmcCount u ≠ 0 then (P.disableGenericPmc u, [.disableGenericPmc]) else (u, [])

/-- `Profile::enableFixedPMU`: the parameter `index_` is a `uint8_t`, so the value a
caller hands over arrives modulo `2^8`. -/
def Profile.enableFixedPMU {π ρ : Type} (P : PMUOps π ρ) (u : π) (index : Nat) :
    π × List (Effect ρ) :=
  (P.enableFixedPmc u (index % 2 ^ 8), [.enableFixedPmc (index % 2 ^ 8)])

/-- `Profile::disableFixedPMU`. -/
def Profile.disableFixedPMU {π ρ : Type} (P : PMUOps π ρ) (u : π) : π × List (Effect ρ) :=
  if P.fixedPmcCount u ≠ 0 then (P.disableFixedPmc u, [.disableFixedPmc]) else (u, [])

/-- `Profile::enablePerfEvents`. -/
def Profile.enablePerfEvents {π ρ : Type} (P : PMUOps π ρ) (u : π) (request : ρ) :
    (π × Bool) × List (Effect ρ) :=
  (P.enablePerfEvents u request, [.enablePerfEvents request])

/-- `Profile::disablePerfEvents`. -/
def Profile.disablePerfEvents {π ρ : Type} (P : PMUOps π ρ) (u : π) : π × List (Effect ρ) :=
  (P.disablePerfEvents u, [.disablePerfEvents])

/-- `Profile::disablePMU`. -/
def Profile.disablePMU {π ρ : Type} (P : PMUOps π ρ) (u : π) : π × List (Effect ρ) :=
  if P.perfEventsEnabled u then
    Profile.disablePerfEvents P u
  else
    let a := Profile.disableGpPMU P u
    let b := Profile.disableFixedPMU P a.1
    (b.1, a.2 ++ b.2)

/-- The DISABLE command `Profile::stop` issues for one recorded probe. -/
def Profile.stopCommand {ρ : Type} (probe : ProbeKey) : Effect ρ :=
  .probeCtl .DISABLE probe.file probe.line (if probe.name ≠ "" then some probe.name else none)

/-- `Profile::stop`: a DISABLE command for every element of `_activeProbes`, visited in
the order of the set, then `disablePMU()`. The set is left as it is. -/
def Profile.stop {π ρ : Type} [LinearOrder ProbeKey] (P : PMUOps π ρ) (p : Profile) (u : π) :
    π × List (Effect ρ) :=
  let cmds : List (Effect ρ) :=
    (p.activeProbes.sort (fun a b => a ≤ b)).map Profile.stopCommand
  let r := Profile.disablePMU P u
  (r.1, cmds ++ r.2)

/-- One probe call made on a `Profile` during a session. -/
inductive ProbeCall
  | activate (key : ProbeKey)
  | deactivate (key : ProbeKey)

/-- The key a call names. -/
def ProbeCall.key : ProbeCall → ProbeKey
  | .activate k => k
  | .deactivate k => k

/-- Performs one call on the profile. -/
def Profile.call {ρ : Type} [DecidableEq ProbeKey] (p : Profile) :
    ProbeCall → Profile × List (Effect ρ)
  | .activate k => p.activateProbe k
  | .deactivate k => p.deactivateProbe k

/-- Performs a sequence of calls, first to last, collecting the commands issued. -/
def Profile.calls {ρ : Type} [DecidableEq ProbeKey] (p : Profile) :
    List ProbeCall → Profile × List (Effect ρ)
  | [] => (p, [])
  | c :: cs =>
    let r := p.call c
    let rest := Profile.calls r.1 cs
    (rest.1, r.2 ++ rest.2)

/-- A whole session on a fresh `Profile`: the calls, then `stop()`. -/
def Profile.session {π ρ : Type} [LinearOrder ProbeKey] (P : PMUOps π ρ) (u : π)
    (cs : List ProbeCall) : π × List (Effect ρ) :=
  let r := Profile.calls Profile.new cs
  let s := Profile.stop P r.1 u
  (s.1, r.2 ++ s.2)

/-- What a registry command addresses: file, line and an optional name. -/
abbrev ProbeTarget := String × Nat × Option String

/-- What `Profile` passes to the registry for a key: an empty name goes as no name. -/
def ProbeKey.target (k : ProbeKey) : ProbeTarget :=
  (k.file, k.line, if k.name = "" then none else some k.name)

/-- Modelled from the spec: the probe registry behind `probes::probeCtl` (`ProbeCtl.H` is
not among the sources), as the set of enabled probes, a probe being "identified by
`(file, line, name?)`". The set is given by its membership test. -/
def Registry := ProbeKey → Bool

/-- Modelled from the spec: which probes a registry command addresses: "matching uses
`(file, line)` with optional name disambiguation", so a command without a name addresses
every probe at that file and line, and a command with a name those of them that carry
it. -/
def Registry.addresses (file : String) (line : Nat) (probeName : Option String)
    (k : ProbeKey) : Bool :=
  decide (k.file = file ∧ k.line = line ∧ (probeName = none ∨ probeName = some k.name))

/-- Modelled from the spec: `probes::probeCtl` on the set of enabled probes: ENABLE adds
the probes the command addresses to the set, DISABLE removes them. -/
def Registry.probeCtl (r : Registry) (cmd : Command) (file : String) (line : Nat)
    (probeName : Option String) : Registry :=
  fun k => if Registry.addresses file line probeName k = true then decide (cmd = .ENABLE)
    else r k

/-- The registry after one call of a `Profile`; PMU calls leave it alone. -/
def Registry.apply {ρ : Type} (r : Registry) : Effect ρ → Registry
  | .probeCtl cmd file line probeName => r.probeCtl cmd file line probeName
  | _ => r

/-- The registry after a sequence of calls. -/
def Registry.run {ρ : Type} (r : Registry) (es : List (Effect ρ)) : Registry :=
  es.foldl Registry.apply r

/-! ## Requests of `ProfileRequest.H` -/

/-- Modelled from the spec: `Response` (`Request.H` is not among the sources), "either a
value string or an error string". Each slot is empty until its setter is called. -/
structure Response where
  value : Option String
  errors : Option String
  deriving DecidableEq, Repr

/-- The response of a request that has not been executed. -/
def Response.new : Response :=
  { value := none, errors := none }

/-- `Response::setValue`. -/
def Response.setValue (r : Response) (value : String) : Response :=
  { r with value := some value }

/-- `Response::setErrors`. -/
def Response.setErrors (r : Response) (errors : String) : Response :=
  { r with errors := some errors }

/-- The `Handler` member functions the requests call (`Handler.H` is not among the
sources): `η` is the handler's state. -/
structure HandlerOps (η ρ : Type) where
  beginProfile : η → String → MilliSeconds → Nat → η × String
  endProfile : η → η × String
  enablePerfEvents : η → ρ → η × Bool
  enableGpPMU : η → Int → η
  enableFixedPMU : η → Int → η
  disablePMU : η → η

/-- `ProfileActivationRequest::execute`. -/
def ProfileActivationRequest.execute {η ρ : Type} (H : HandlerOps η ρ)
    (samplesFilePattern : String) (pollInterval : MilliSeconds) (samplesDataCapacity : Nat)
    (handler : η) (response : Response) : η × Response :=
  let rc := H.beginProfile handler samplesFilePattern pollInterval samplesDataCapacity
  if rc.2 = "" then (rc.1, response.setValue "") else (rc.1, response.setErrors rc.2)

/-- `ProfileDeactivationRequest::execute`. -/
def ProfileDeactivationRequest.execute {η ρ : Type} (H : HandlerOps η ρ)
    (handler : η) (response : Response) : η × Response :=
  let rc := H.endProfile handler
  if rc.2 = "" then (rc.1, response.setValue "") else (rc.1, response.setErrors rc.2)

/-- `PmuActivationRequest::execute`. -/
def PmuActivationRequest.execute {η ρ : Type} (H : HandlerOps η ρ)
    (gpEventsCount : Int) (fixedEventIndices : List Int)
    (handler : η) (response : Response) : η × Response :=
  let h1 := H.enableGpPMU handler gpEventsCount
  let h2 := fixedEventIndices.foldl H.enableFixedPMU h1
  (h2, response.setValue "")

/-- `PerfEventsActivationRequest::execute`. -/
def PerfEventsActivationRequest.execute {η ρ : Type} (H : HandlerOps η ρ) (request : ρ)
    (handler : η) (response : Response) : η × Response :=
  let rc := H.enablePerfEvents handler request
  if rc.2 then (rc.1, response.setValue "")
  else (rc.1, response.setErrors
    "Failed to enable perf events - check target app stdout for more details.")

/-- `PmuDeactivationRequest::execute`. -/
def PmuDeactivationRequest.execute {η ρ : Type} (H : HandlerOps η ρ)
    (handler : η) (response : Response) : η × Response :=
  (H.disablePMU handler, response.setValue "")

/-- Sessions whose polls return the fixed results `L` and `R` whatever the gate. -/
def constOps (L R : Bool) : SessionOps Unit Unit where
  localPoll := fun _ _ => ((), L)
  remotePoll := fun _ _ => ((), R)
  handlerPoll := fun _ => ()
  handlerPollInterval := fun _ => 1
  handlerIsProfileActive := fun _ => false
  localExecute := fun _ _ _ => ((), true, "")

/-- Sessions that report work exactly when they are gated on and have some (`l`, `r`). -/
def gatedOps (l r : Bool) : SessionOps Unit Unit where
  localPoll := fun _ gate => ((), gate && l)
  remotePoll := fun _ gate => ((), gate && r)
  handlerPoll := fun _ => ()
  handlerPollInterval := fun _ => 1
  handlerIsProfileActive := fun _ => false
  localExecute := fun _ _ _ => ((), true, "")

/-- The state after the local step, in the words of the specification: `LOCAL` if the
local session produced work, else `DORMANT` if the state was `LOCAL`, else unchanged. -/
def specAfterLocal (L : Bool) (s : SessionType) : SessionType :=
  if L = true then .LOCAL else if s = .LOCAL then .DORMANT else s

/-- The state after the remote step, in the words of the specification: `REMOTE` if the
remote session produced work, else `DORMANT` if the state was `REMOTE`, else unchanged. -/
def specAfterRemote (R : Bool) (s1 : SessionType) : SessionType :=
  if R = true then .REMOTE else if s1 = .REMOTE then .DORMANT else s1

/-- Whether a request is a `ProfileDeactivationRequest` (EndProfile). -/
def Request.isDeactivation {ρ : Type} : Request ρ → Bool
  | .profileDeactivation => true
  | _ => false

/-- A concrete order on probe keys: by file, then line, then name. -/
def ProbeKey.lexOrder : LinearOrder ProbeKey :=
  LinearOrder.lift' (fun k : ProbeKey => toLex (k.file, toLex (k.line, k.name)))
    (by
      rintro ⟨n1, f1, l1⟩ ⟨n2, f2, l2⟩ h
      simp only [EmbeddingLike.apply_eq_iff_eq, Prod.mk.injEq] at h
      obtain ⟨hf, hl, hn⟩ := h
      subst hf hl hn
      rfl)

/-- A PMU controller with nothing enabled and nothing to do. -/
def idlePMU : PMUOps Unit Unit where
  perfEventsEnabled := fun _ => false
  genericPmcCount := fun _ => 0
  fixedPmcCount := fun _ => 0
  enableGenericPmc := fun _ _ => ()
  disableGenericPmc := fun _ => ()
  enableFixedPmc := fun _ _ => ()
  disableFixedPmc := fun _ => ()
  enablePerfEvents := fun _ _ => ((), true)
  disablePerfEvents := fun _ => ()

/-- A registry in which exactly the probe `p` is enabled. -/
def onlyEnabled (p : ProbeKey) : Registry :=
  fun k => decide (k.name = p.name ∧ k.file = p.file ∧ k.line = p.line)

/-! ## The polling loop of `Framework::run` -/

/-- The body of the `while` loop of `Framework::run` (lines 116-122), entered while
`_canRun` is set: one `poll()`, delivery of the init promise once a profile is active, and
the sleep. `promisePending` is `promiseKeeper.isPending()` (`PromiseKeeper.H` is not among
the sources; delivering ends the pending state). The result lists the calls of the tick
and, unless an `assert` aborted it, the framework, the pending flag and the duration
handed to `sleep_for`. -/
def Framework.runIteration {σ ρ : Type} (E : SessionOps σ ρ) (ndebug : Bool)
    (fw : Framework σ) (promisePending : Bool) :
    List PollEvent × Option (Framework σ × Bool × MilliSeconds) :=
  match SessionManager.poll E ndebug fw.sessionManager with
  | (t, none) => (t, none)
  | (t, some m) =>
    let pending : Bool :=
      if promisePending = true ∧ SessionManager.isProfileActive E m = true then false
      else promisePending
    (t, some ({ fw with sessionManager := m }, pending, SessionManager.pollInterval E m))

/-- Sessions and a handler like `constOps` whose handler holds a poll interval of 0. -/
def zeroIntervalOps (L R : Bool) : SessionOps Unit Unit where
  localPoll := fun _ _ => ((), L)
  remotePoll := fun _ _ => ((), R)
  handlerPoll := fun _ => ()
  handlerPollInterval := fun _ => 0
  handlerIsProfileActive := fun _ => true
  localExecute := fun _ _ _ => ((), true, "")

/-! ## Sample file headers (`Persister.H`) -/

/-- `timeval`: seconds and microseconds, copied as they are. -/
structure Timeval where
  sec : Int
  usec : Int
  deriving DecidableEq, Repr

/-- `SegmentHeader::XPEDITE_SEGMENT_HDR_SIG`. -/
def XPEDITE_SEGMENT_HDR_SIG : Nat := 0x5CA1AB1E887A57EF

/-- `FileHeader::XPEDITE_VERSION`. -/
def XPEDITE_VERSION : Nat := 0x0200

/-- `FileHeader::XPEDITE_FILE_HDR_SIG`. -/
def XPEDITE_FILE_HDR_SIG : Nat := 0xC01DC01DC0FFEEEE

/-- `SegmentHeader`: the data members, each a natural number below its width. -/
structure SegmentHeader where
  signature : Nat
  time : Timeval
  size : Nat
  seq : Nat
  deriving DecidableEq, Repr

/-- `SegmentHeader(timeval time_, unsigned size_, unsigned seq_)`: the two counts are
stored in `uint32_t` members. -/
def SegmentHeader.new (time : Timeval) (size seq : Nat) : SegmentHeader :=
  { signature := XPEDITE_SEGMENT_HDR_SIG, time := time,
    size := size % 2 ^ 32, seq := seq % 2 ^ 32 }

/-- `FileHeader`: the data members and the call sites copied behind them. `κ` is
`CallSiteInfo` (`CallSiteInfo.H` is not among the sources). -/
structure FileHeader (κ : Type) where
  signature : Nat
  version : Nat
  time : Timeval
  tscHz : Nat
  pmcCount : Nat
  callSiteCount : Nat
  callSitesData : List κ

/-- `FileHeader(callSites_, time_, tscHz_, pmcCount_)`: `tscHz_` is a `uint64_t`,
`pmcCount_` a `uint32_t`, the count is `static_cast<uint32_t>(callSites_.size())`, and the
`memcpy` copies every element of the vector behind the header. -/
def FileHeader.new {κ : Type} (callSites : List κ) (time : Timeval) (tscHz pmcCount : Nat) :
    FileHeader κ :=
  { signature := XPEDITE_FILE_HDR_SIG, version := XPEDITE_VERSION, time := time,
    tscHz := tscHz % 2 ^ 64, pmcCount := pmcCount % 2 ^ 32,
    callSiteCount := callSites.length % 2 ^ 32, callSitesData := callSites }

/-- `FileHeader::isValid`. -/
def FileHeader.isValid {κ : Type} (h : FileHeader κ) : Bool :=
  decide (h.signature = XPEDITE_FILE_HDR_SIG ∧ h.version = XPEDITE_VERSION)

/-- `FileHeader::callSites`: the array behind the header, read up to the stored count, and
the count. -/
def FileHeader.callSites {κ : Type} (h : FileHeader κ) : List κ × Nat :=
  (h.callSitesData.take h.callSiteCount, h.callSiteCount)

/-! ## Thread and process initialisation (`Framework.C`) -/

/-- A thread of the process. -/
abbrev ThreadId := Nat

/-- What the initialisation entry points do to the outside: a call of
`SamplesBuffer::expand()` made in a thread, and the start of the background thread with the
arguments captured by its closure. -/
inductive InitEvent
  | expand (tid : ThreadId)
  | spawnThread (appInfoFile listenerIp : String) (awaitProfileBegin : Bool)
  deriving DecidableEq, Repr

/-- The statics of `Framework.C`: the thread-local `threadInitFlag` of every thread, the
once flag `initFlag` (set once `std::call_once` has run its routine), the global
`framework` pointer, and the buffers `SamplesBuffer::expand()` works on (`β`;
`SamplesBuffer.H` is not among the sources). -/
structure Process (σ β : Type) where
  threadInitFlag : ThreadId → Bool
  initFlag : Bool
  framework : Option (Framework σ)
  samplesBuffers : β

/-- The process as static initialisation leaves it. -/
def Process.start {σ β : Type} (samplesBuffers : β) : Process σ β :=
  { threadInitFlag := fun _ => false, initFlag := false, framework := none,
    samplesBuffers := samplesBuffers }

/-- `initializeThread`, called in thread `tid`. `expand` is `SamplesBuffer::expand()`. -/
def initializeThread {σ β : Type} (expand : β → β) (tid : ThreadId) (p : Process σ β) :
    Process σ β × Bool × List InitEvent :=
  if ¬ (p.threadInitFlag tid = true) then
    ({ p with
        samplesBuffers := expand p.samplesBuffers,
        threadInitFlag := fun t => if t = tid then true else p.threadInitFlag t },
      true, [.expand tid])
  else
    (p, false, [])

/-- `k` calls of `initializeThread` in thread `tid`, one after the other: the process
afterwards, the values returned and the events, both in call order. -/
def initializeThreadTimes {σ β : Type} (expand : β → β) (tid : ThreadId) :
    Nat → Process σ β → Process σ β × List Bool × List InitEvent
  | 0, p => (p, [], [])
  | k + 1, p =>
    let r := initializeThread expand tid p
    let rest := initializeThreadTimes expand tid k r.1
    (rest.1, r.2.1 :: rest.2.1, r.2.2 ++ rest.2.2)

/-- What the caller of `initializeOnce` gets to see of the background thread it started:
the value the thread has stored in the global `framework` pointer by the time the wait is
over (`none` if `instantiateFramework` threw or has not run), and whether the init future
becomes ready within a given number of seconds. -/
structure ThreadStart (σ : Type) where
  framework : Option (Framework σ)
  readyWithin : Nat → Bool

/-- `initializeOnce`: starts the background thread, then waits for the init future with a
timeout of 120 s when awaiting the profile begin and 5 s otherwise; `*rc_` is the second
component. -/
def initializeOnce {σ β : Type} (o : ThreadStart σ) (appInfoFile listenerIp : String)
    (awaitProfileBegin : Bool) (p : Process σ β) : Process σ β × Bool × List InitEvent :=
  let timeout : Nat := if awaitProfileBegin = true then 120 else 5
  let p1 : Process σ β := { p with framework := o.framework }
  if ¬ (o.readyWithin timeout = true) then
    (p1, false, [.spawnThread appInfoFile listenerIp awaitProfileBegin])
  else
    (p1, true, [.spawnThread appInfoFile listenerIp awaitProfileBegin])

/-- The entry point `initialize(appInfoFile_, listenerIp_, awaitProfileBegin_)` (its name
is reserved here), called in thread `tid`:
`initializeThread()`, then `std::call_once(initFlag, initializeOnce, ...)` with `rc`
starting out false. -/
def initializeWithListener {σ β : Type} (expand : β → β) (o : ThreadStart σ) (tid : ThreadId)
    (appInfoFile listenerIp : String) (awaitProfileBegin : Bool) (p : Process σ β) :
    Process σ β × Bool × List InitEvent :=
  let t := initializeThread expand tid p
  let rc : Bool := false
  if t.1.initFlag = true then
    (t.1, rc, t.2.2)
  else
    let r := initializeOnce o appInfoFile listenerIp awaitProfileBegin
      { t.1 with initFlag := true }
    (r.1, r.2.1, t.2.2 ++ r.2.2)

/-- `initialize(appInfoFile_, awaitProfileBegin_)`: the overload without a listener
address. -/
def initializeDefaultListener {σ β : Type} (expand : β → β) (o : ThreadStart σ) (tid : ThreadId)
    (appInfoFile : String) (awaitProfileBegin : Bool) (p : Process σ β) :
    Process σ β × Bool × List InitEvent :=
  initializeWithListener expand o tid appInfoFile "" awaitProfileBegin p

/-- One call of `initialize` with everything it depends on. -/
structure InitCall (σ : Type) where
  start : ThreadStart σ
  tid : ThreadId
  appInfoFile : String
  listenerIp : String
  awaitProfileBegin : Bool

/-- A sequence of `initialize` calls, one after the other: the process afterwards, the
values returned and the events, both in call order. -/
def initializeAll {σ β : Type} (expand : β → β) :
    List (InitCall σ) → Process σ β → Process σ β × List Bool × List InitEvent
  | [], p => (p, [], [])
  | c :: cs, p =>
    let r := initializeWithListener expand c.start c.tid c.appInfoFile c.listenerIp c.awaitProfileBegin p
    let rest := initializeAll expand cs r.1
    (rest.1, r.2.1 :: rest.2.1, r.2.2 ++ rest.2.2)

/-- Whether an event is the start of the background thread. -/
def InitEvent.isSpawn : InitEvent → Bool
  | .spawnThread _ _ _ => true
  | _ => false

/-! ## Pools of session guards -/

/-- A move between the guards of a pool, addressed by position: move construction of a
new guard from the guard at `src`, or move assignment of the guard at `src` to the guard at
`dst`. -/
inductive GuardMove
  | construct (src : Nat)
  | assign (dst src : Nat)
  deriving DecidableEq, Repr

/-- Performs one move on a pool of guards; the new guard of a move construction joins the
pool at the end. A move that names a position outside the pool does nothing. -/
def GuardMove.perform (pool : List SessionGuard) : GuardMove → List SessionGuard
  | .construct src =>
    match pool[src]? with
    | some g =>
      let r := SessionGuard.moveConstruct g
      pool.set src r.2 ++ [r.1]
    | none => pool
  | .assign dst src =>
    match pool[dst]?, pool[src]? with
    | some a, some b =>
      let r := SessionGuard.moveAssign a b
      (pool.set dst r.1).set src r.2
    | _, _ => pool

/-- Destroys every guard of a pool, first to last: the global `framework` pointer's
referent afterwards, the guards as their destructors leave them, and the requests
executed. -/
def destroyAll {σ ρ : Type} (E : SessionOps σ ρ) (framework : Option (Framework σ)) :
    List SessionGuard → Option (Framework σ) × List SessionGuard × List (Request ρ)
  | [] => (framework, [], [])
  | g :: gs =>
    let r := SessionGuard.destroy E framework g
    let rest := destroyAll E r.1 gs
    (rest.1, r.2.1 :: rest.2.1, r.2.2 ++ rest.2.2)

/-- Executing one EndProfile request on the collaborators' state, as `Framework::endProfile`
does through `SessionManager::execute`. -/
def executeEndProfile {σ ρ : Type} (E : SessionOps σ ρ) (env : σ) : σ :=
  (E.localExecute env (.profileDeactivation : Request ρ) 0).1

/-- The number of guards of a pool that are alive. -/
def aliveCount (pool : List SessionGuard) : Nat :=
  pool.countP (fun g => g.isAlive)

/-! ## Theorems -/

/-! ### Session manager -/

/-- The local step completes whenever its `assert` holds, and then follows the two
branches of the source. -/
theorem pollLocal_of_assert {σ ρ : Type} (E : SessionOps σ ρ) (ndebug : Bool)
    (m : SessionManager σ)
    (h : (E.localPoll m.env (decide (m.sessionType = .DORMANT ∨ m.sessionType = .LOCAL))).2 = true →
      ndebug = true ∨ (m.sessionType = .DORMANT ∨ m.sessionType = .LOCAL)) :
    SessionManager.pollLocal E ndebug m =
      ([.localPoll (decide (m.sessionType = .DORMANT ∨ m.sessionType = .LOCAL))
          (E.localPoll m.env (decide (m.sessionType = .DORMANT ∨ m.sessionType = .LOCAL))).2],
       some { env := (E.localPoll m.env
                (decide (m.sessionType = .DORMANT ∨ m.sessionType = .LOCAL))).1,
              sessionType :=
                if (E.localPoll m.env
                    (decide (m.sessionType = .DORMANT ∨ m.sessionType = .LOCAL))).2 = true
                then .LOCAL
                else if m.sessionType = .LOCAL then .DORMANT else m.sessionType }) := by
  unfold SessionManager.pollLocal
  by_cases hw : (E.localPoll m.env (decide (m.sessionType = .DORMANT ∨ m.sessionType = .LOCAL))).2 = true
  · simp only [hw, if_true, if_pos (h hw)]
  · simp only [hw, if_false]
    by_cases hs : m.sessionType = .LOCAL
    · simp [hs]
    · simp [hs]

/-- The remote step completes whenever its `assert` holds. -/
theorem pollRemote_of_assert {σ ρ : Type} (E : SessionOps σ ρ) (ndebug : Bool)
    (m : SessionManager σ)
    (h : (E.remotePoll m.env (decide (m.sessionType = .DORMANT ∨ m.sessionType = .REMOTE))).2 = true →
      ndebug = true ∨ (m.sessionType = .DORMANT ∨ m.sessionType = .REMOTE)) :
    SessionManager.pollRemote E ndebug m =
      ([.remotePoll (decide (m.sessionType = .DORMANT ∨ m.sessionType = .REMOTE))
          (E.remotePoll m.env (decide (m.sessionType = .DORMANT ∨ m.sessionType = .REMOTE))).2],
       some { env := (E.remotePoll m.env
                (decide (m.sessionType = .DORMANT ∨ m.sessionType = .REMOTE))).1,
              sessionType :=
                if (E.remotePoll m.env
                    (decide (m.sessionType = .DORMANT ∨ m.sessionType = .REMOTE))).2 = true
                then .REMOTE
                else if m.sessionType = .REMOTE then .DORMANT else m.sessionType }) := by
  unfold SessionManager.pollRemote
  by_cases hw : (E.remotePoll m.env (decide (m.sessionType = .DORMANT ∨ m.sessionType = .REMOTE))).2 = true
  · simp only [hw, if_true, if_pos (h hw)]
  · simp only [hw, if_false]
    by_cases hs : m.sessionType = .REMOTE
    · simp [hs]
    · simp [hs]

/-- A tick whose two session steps complete is their sequence followed by the handler step. -/
theorem poll_of_steps {σ ρ : Type} (E : SessionOps σ ρ) (ndebug : Bool)
    (m m1 m2 : SessionManager σ) (t1 t2 : List PollEvent)
    (h1 : SessionManager.pollLocal E ndebug m = (t1, some m1))
    (h2 : SessionManager.pollRemote E ndebug m1 = (t2, some m2)) :
    SessionManager.poll E ndebug m =
      (t1 ++ t2 ++ (SessionManager.pollHandler E m2).1,
        some (SessionManager.pollHandler E m2).2) := by
  simp [SessionManager.poll, h1, h2]

/-- A gated-off poll that reports no work satisfies the `assert` of its step. -/
theorem gate_of_work {σ : Type} (f : σ → Bool → σ × Bool) (hf : ∀ st, (f st false).2 = false)
    (st : σ) (c : Prop) [Decidable c] (hw : (f st (decide c)).2 = true) : c := by
  by_contra hc
  simp [hc, hf] at hw

/-- Claim C1: in every tick of `SessionManager::poll`, from every session state, if each
session's poll reports work only when it is called with a true gate, then the tick runs to
completion, the local and the remote session never both report work, a local poll that
returns true makes the state `LOCAL` (also at the end of the tick) and has the remote
session polled with gate false, and the remote session is polled with gate true only when
the state after the local step is `DORMANT` or `REMOTE`. -/
theorem poll_mutual_exclusion {σ ρ : Type} (E : SessionOps σ ρ) (ndebug : Bool)
    (m : SessionManager σ)
    (hL : ∀ st, (E.localPoll st false).2 = false)
    (hR : ∀ st, (E.remotePoll st false).2 = false) :
    ∃ gl wl m1 gr wr m2,
      SessionManager.pollLocal E ndebug m = ([.localPoll gl wl], some m1) ∧
      SessionManager.pollRemote E ndebug m1 = ([.remotePoll gr wr], some m2) ∧
      SessionManager.poll E ndebug m =
        (PollEvent.localPoll gl wl :: PollEvent.remotePoll gr wr ::
          (SessionManager.pollHandler E m2).1, some (SessionManager.pollHandler E m2).2) ∧
      ¬ (wl = true ∧ wr = true) ∧
      (wl = true → m1.sessionType = .LOCAL ∧ gr = false ∧
        (SessionManager.pollHandler E m2).2.sessionType = .LOCAL) ∧
      (gr = true → m1.sessionType = .DORMANT ∨ m1.sessionType = .REMOTE) := by
  have h1 := pollLocal_of_assert E ndebug m
    (fun hw => Or.inr (gate_of_work E.localPoll hL m.env _ hw))
  have h2 := fun m1 : SessionManager σ => pollRemote_of_assert E ndebug m1
    (fun hw => Or.inr (gate_of_work E.remotePoll hR m1.env _ hw))
  refine ⟨_, _, _, _, _, _, h1, h2 _, ?_, ?_, ?_, ?_⟩
  · simpa using poll_of_steps E ndebug m _ _ _ _ h1 (h2 _)
  · rintro ⟨hwl, hwr⟩
    have := gate_of_work E.remotePoll hR _ _ hwr
    simp only [hwl, if_true] at this
    revert this
    decide
  · intro hwl
    simp only [hwl, if_true, SessionManager.pollHandler]
    have hg : decide (SessionType.LOCAL = .DORMANT ∨ SessionType.LOCAL = .REMOTE) = false := by
      decide
    simp only [hg, hR]
    refine ⟨trivial, trivial, ?_⟩
    have hne : (if false = true then SessionType.REMOTE
        else if SessionType.LOCAL = .REMOTE then .DORMANT else .LOCAL) = .LOCAL := by decide
    simp only [hne]
    have hd : SessionType.LOCAL ≠ .DORMANT := by decide
    simp only [if_pos hd]
  · intro hg
    exact of_decide_eq_true hg

/-- Claim C1 at a concrete tick: both sessions have work, the manager is dormant. -/
theorem poll_mutual_exclusion_witness :
    (∀ st, ((gatedOps true true).localPoll st false).2 = false) ∧
    (∀ st, ((gatedOps true true).remotePoll st false).2 = false) ∧
    ∃ gl wl m1 gr wr m2,
      SessionManager.pollLocal (gatedOps true true) false ⟨(), .DORMANT⟩
        = ([.localPoll gl wl], some m1) ∧
      SessionManager.pollRemote (gatedOps true true) false m1
        = ([.remotePoll gr wr], some m2) ∧
      SessionManager.poll (gatedOps true true) false ⟨(), .DORMANT⟩ =
        (PollEvent.localPoll gl wl :: PollEvent.remotePoll gr wr ::
          (SessionManager.pollHandler (gatedOps true true) m2).1,
          some (SessionManager.pollHandler (gatedOps true true) m2).2) ∧
      ¬ (wl = true ∧ wr = true) ∧
      (wl = true → m1.sessionType = .LOCAL ∧ gr = false ∧
        (SessionManager.pollHandler (gatedOps true true) m2).2.sessionType = .LOCAL) ∧
      (gr = true → m1.sessionType = .DORMANT ∨ m1.sessionType = .REMOTE) :=
  ⟨fun _ => rfl, fun _ => rfl,
    poll_mutual_exclusion (gatedOps true true) false ⟨(), .DORMANT⟩ (fun _ => rfl) (fun _ => rfl)⟩

/-- Claim C2 fails for a tick that starts in `REMOTE` with an idle remote session while the
local poll returns true: with assertions compiled in, the `assert` of the local step aborts
the tick; with `NDEBUG`, the tick ends in `LOCAL` and calls `handler.poll()`. -/
theorem poll_remote_start_counterexample :
    SessionManager.poll (constOps true false) false ⟨(), .REMOTE⟩
        = ([.localPoll false true], none) ∧
    SessionManager.poll (constOps true false) true ⟨(), .REMOTE⟩
        = ([.localPoll false true, .remotePoll false false, .handlerPoll],
            some ⟨(), .LOCAL⟩) :=
  ⟨rfl, rfl⟩

/-- Claim C2, amended: for every starting state and every pair of poll results `L`, `R` for
which the two `assert`s of the tick hold (always, under `NDEBUG`), one tick computes
`s1 = LOCAL if L, else DORMANT if s = LOCAL, else s`, then
`s2 = REMOTE if R, else DORMANT if s1 = REMOTE, else s1`, leaves the state equal to `s2`,
and calls `handler.poll()` once if `s2` is not `DORMANT` and not at all otherwise. A tick
that starts in `REMOTE` in which neither session reports work ends in `DORMANT`. -/
theorem poll_transition {σ ρ : Type} (E : SessionOps σ ρ) (ndebug : Bool)
    (m : SessionManager σ) :
    let gl := decide (m.sessionType = .DORMANT ∨ m.sessionType = .LOCAL)
    let L := (E.localPoll m.env gl).2
    let s1 := specAfterLocal L m.sessionType
    let gr := decide (s1 = .DORMANT ∨ s1 = .REMOTE)
    let R := (E.remotePoll (E.localPoll m.env gl).1 gr).2
    let s2 := specAfterRemote R s1
    (L = true → ndebug = true ∨ (m.sessionType = .DORMANT ∨ m.sessionType = .LOCAL)) →
    (R = true → ndebug = true ∨ (s1 = .DORMANT ∨ s1 = .REMOTE)) →
    ∃ m2, SessionManager.poll E ndebug m =
        ([.localPoll gl L, .remotePoll gr R] ++ (if s2 ≠ .DORMANT then [.handlerPoll] else []),
          some m2) ∧
      m2.sessionType = s2 ∧
      (m.sessionType = .REMOTE → L = false → R = false → s2 = .DORMANT) := by
  intro gl L s1 gr R s2 hL hR
  have h1 : SessionManager.pollLocal E ndebug m =
      ([.localPoll gl L], some { env := (E.localPoll m.env gl).1, sessionType := s1 }) :=
    pollLocal_of_assert E ndebug m hL
  have h2 : SessionManager.pollRemote E ndebug
        { env := (E.localPoll m.env gl).1, sessionType := s1 } =
      ([.remotePoll gr R],
        some { env := (E.remotePoll (E.localPoll m.env gl).1 gr).1, sessionType := s2 }) :=
    pollRemote_of_assert E ndebug { env := (E.localPoll m.env gl).1, sessionType := s1 } hR
  have h := poll_of_steps E ndebug m _ _ _ _ h1 h2
  refine ⟨(SessionManager.pollHandler E
      { env := (E.remotePoll (E.localPoll m.env gl).1 gr).1, sessionType := s2 }).2, ?_, ?_, ?_⟩
  · rw [h]
    unfold SessionManager.pollHandler
    by_cases hs : s2 = .DORMANT
    · simp [hs]
    · simp [hs]
  · unfold SessionManager.pollHandler
    by_cases hs : s2 = .DORMANT
    · simp [hs]
    · simp [hs]
  · intro hs hl hr
    simp [s2, specAfterRemote, hr, s1, specAfterLocal, hl, hs]

/-- Claim C2, amended, at a concrete tick: `REMOTE` with both sessions idle. -/
theorem poll_transition_witness :
    ∃ m2, SessionManager.poll (constOps false false) false ⟨(), .REMOTE⟩ =
        ([.localPoll false false, .remotePoll true false] ++
          (if SessionType.DORMANT ≠ .DORMANT then [.handlerPoll] else []), some m2) ∧
      m2.sessionType = .DORMANT ∧
      (SessionType.REMOTE = .REMOTE → false = false → false = false →
        SessionType.DORMANT = .DORMANT) :=
  poll_transition (constOps false false) false ⟨(), .REMOTE⟩
    (fun h => absurd h (by decide)) (fun h => absurd h (by decide))

/-! ### `Framework::beginProfile` -/

theorem append_ne_empty (a b : String) (h : 0 < a.length) : a ++ b ≠ "" := by
  intro he
  have := congrArg String.length he
  simp [String.length_append] at this
  omega

/-- The outcome of profile activation step by cases. -/
theorem activateProfile_eq {σ ρ : Type} (E : SessionOps σ ρ) (tmpl : String)
    (fw : Framework σ) (info : ProfileInfo ρ) :
    Framework.activateProfile E tmpl fw (SessionGuard.ofAlive true) info =
      if (E.localExecute fw.sessionManager.env
            (.profileActivation tmpl 1 info.samplesDataCapacity) 0).2.1 = true then
        ({ fw with sessionManager := (fw.sessionManager.execute E
              (.profileActivation tmpl 1 info.samplesDataCapacity)).1 },
          { isAlive := true, errors := "" },
          [.profileActivation tmpl 1 info.samplesDataCapacity])
      else
        (({ fw with sessionManager := (fw.sessionManager.execute E
              (.profileActivation tmpl 1 info.samplesDataCapacity)).1 } :
              Framework σ).endProfile E |>.1,
          SessionGuard.ofErrors ("xpedite failed to activate profile - " ++
            (E.localExecute fw.sessionManager.env
              (.profileActivation tmpl 1 info.samplesDataCapacity) 0).2.2),
          [.profileActivation tmpl 1 info.samplesDataCapacity, .profileDeactivation]) := by
  unfold Framework.activateProfile
  by_cases h : (E.localExecute fw.sessionManager.env
            (.profileActivation tmpl 1 info.samplesDataCapacity) 0).2.1 = true
  · simp [h, SessionManager.execute, SessionGuard.destroyWith, SessionGuard.moveConstruct,
      SessionGuard.ofAlive]
  · simp [h, SessionManager.execute, SessionGuard.destroyWith, SessionGuard.ofAlive,
      Framework.endProfile]

/-- The guard returned and the requests executed by `beginProfile`, by cases on the
outcome of each step. -/
theorem beginProfile_out {σ ρ : Type} (E : SessionOps σ ρ) (eventCount : ρ → Nat)
    (tmpl : String) (this : Framework σ) (info : ProfileInfo ρ) :
    (Framework.beginProfile E eventCount tmpl this info).2 =
      if (E.localExecute this.sessionManager.env (.probeActivation info.probes) 0).2.1 = true then
        if eventCount info.pmuRequest ≠ 0 then
          if (E.localExecute
                (E.localExecute this.sessionManager.env (.probeActivation info.probes) 0).1
                (.perfEventsActivation info.pmuRequest) 0).2.1 = true then
            if (E.localExecute
                  (E.localExecute
                    (E.localExecute this.sessionManager.env (.probeActivation info.probes) 0).1
                    (.perfEventsActivation info.pmuRequest) 0).1
                  (.profileActivation tmpl 1 info.samplesDataCapacity) 0).2.1 = true then
              ({ isAlive := true, errors := "" },
                [.probeActivation info.probes, .perfEventsActivation info.pmuRequest,
                  .profileActivation tmpl 1 info.samplesDataCapacity])
            else
              (SessionGuard.ofErrors ("xpedite failed to activate profile - " ++
                  (E.localExecute
                    (E.localExecute
                      (E.localExecute this.sessionManager.env (.probeActivation info.probes) 0).1
                      (.perfEventsActivation info.pmuRequest) 0).1
                    (.profileActivation tmpl 1 info.samplesDataCapacity) 0).2.2),
                [.probeActivation info.probes, .perfEventsActivation info.pmuRequest,
                  .profileActivation tmpl 1 info.samplesDataCapacity, .profileDeactivation])
          else
            (SessionGuard.ofErrors ("xpedite failed to enable perf events - " ++
                (E.localExecute
                  (E.localExecute this.sessionManager.env (.probeActivation info.probes) 0).1
                  (.perfEventsActivation info.pmuRequest) 0).2.2),
              [.probeActivation info.probes, .perfEventsActivation info.pmuRequest,
                .profileDeactivation])
        else
          if (E.localExecute
                (E.localExecute this.sessionManager.env (.probeActivation info.probes) 0).1
                (.profileActivation tmpl 1 info.samplesDataCapacity) 0).2.1 = true then
            ({ isAlive := true, errors := "" },
              [.probeActivation info.probes,
                .profileActivation tmpl 1 info.samplesDataCapacity])
          else
            (SessionGuard.ofErrors ("xpedite failed to activate profile - " ++
                (E.localExecute
                  (E.localExecute this.sessionManager.env (.probeActivation info.probes) 0).1
                  (.profileActivation tmpl 1 info.samplesDataCapacity) 0).2.2),
              [.probeActivation info.probes,
                .profileActivation tmpl 1 info.samplesDataCapacity, .profileDeactivation])
      else
        (SessionGuard.ofErrors ("xpedite failed to enable probes - " ++
            (E.localExecute this.sessionManager.env (.probeActivation info.probes) 0).2.2),
          [.probeActivation info.probes]) := by
  unfold Framework.beginProfile
  simp only [activateProfile_eq, SessionManager.execute]
  by_cases h1 : (E.localExecute this.sessionManager.env (.probeActivation info.probes) 0).2.1 = true
  · by_cases hp : eventCount info.pmuRequest = 0
    · by_cases h3 : (E.localExecute
                (E.localExecute this.sessionManager.env (.probeActivation info.probes) 0).1
                (.profileActivation tmpl 1 info.samplesDataCapacity) 0).2.1 = true
      · simp [h1, hp, h3]
      · simp [h1, hp, h3]
    · by_cases h2 : (E.localExecute
                (E.localExecute this.sessionManager.env (.probeActivation info.probes) 0).1
                (.perfEventsActivation info.pmuRequest) 0).2.1 = true
      · by_cases h3 : (E.localExecute
                  (E.localExecute
                    (E.localExecute this.sessionManager.env (.probeActivation info.probes) 0).1
                    (.perfEventsActivation info.pmuRequest) 0).1
                  (.profileActivation tmpl 1 info.samplesDataCapacity) 0).2.1 = true
        · simp [h1, hp, h2, h3]
        · simp [h1, hp, h2, h3]
      · simp [h1, hp, h2, SessionGuard.destroyWith, SessionGuard.ofAlive, Framework.endProfile]
  · simp [h1]

/-- Claim C3: `SessionManager::pollInterval` is 500 ms when the state is `DORMANT` and the
handler's interval in every other state; every profile activation request that
`Framework::beginProfile` executes asks for a poll interval of 1 ms, and a live guard is
returned only after such a request was executed. -/
theorem pollInterval_spec {σ ρ : Type} (E : SessionOps σ ρ) (m : SessionManager σ)
    (eventCount : ρ → Nat) (tmpl : String) (this : Framework σ) (info : ProfileInfo ρ) :
    (m.sessionType = .DORMANT → SessionManager.pollInterval E m = 500) ∧
    (m.sessionType ≠ .DORMANT →
      SessionManager.pollInterval E m = E.handlerPollInterval m.env) ∧
    (∀ pattern interval capacity,
      Request.profileActivation pattern interval capacity ∈
          (Framework.beginProfile E eventCount tmpl this info).2.2 →
        interval = 1) ∧
    ((Framework.beginProfile E eventCount tmpl this info).2.1.isAlive = true →
      Request.profileActivation tmpl 1 info.samplesDataCapacity ∈
        (Framework.beginProfile E eventCount tmpl this info).2.2) := by
  refine ⟨fun h => by simp [SessionManager.pollInterval, h],
    fun h => by simp [SessionManager.pollInterval, h], ?_, ?_⟩
  · intro pattern interval capacity hmem
    rw [beginProfile_out] at hmem
    split_ifs at hmem <;> simp at hmem <;> exact hmem.2.1
  · intro halive
    rw [beginProfile_out] at halive ⊢
    split_ifs at halive ⊢ <;> simp [SessionGuard.ofErrors] at halive ⊢

/-! ### Profile and probe registry -/

theorem ProbeKey.target_injective : Function.Injective ProbeKey.target := by
  rintro ⟨n1, f1, l1⟩ ⟨n2, f2, l2⟩ h
  simp only [ProbeKey.target, Prod.mk.injEq] at h
  obtain ⟨hf, hl, hn⟩ := h
  subst hf hl
  by_cases h1 : n1 = "" <;> by_cases h2 : n2 = "" <;> simp_all

theorem Registry.run_append {ρ : Type} (r : Registry) (a b : List (Effect ρ)) :
    Registry.run r (a ++ b) = Registry.run (Registry.run r a) b := by
  simp [Registry.run, List.foldl_append]

theorem Registry.run_cons {ρ : Type} (r : Registry) (e : Effect ρ) (es : List (Effect ρ)) :
    Registry.run r (e :: es) = Registry.run (Registry.apply r e) es := rfl

theorem Registry.run_nil {ρ : Type} (r : Registry) :
    Registry.run r ([] : List (Effect ρ)) = r := rfl

theorem stopCommand_eq {ρ : Type} (k : ProbeKey) :
    (Profile.stopCommand k : Effect ρ) = .probeCtl .DISABLE k.target.1 k.target.2.1 k.target.2.2 := by
  by_cases h : k.name = "" <;> simp [Profile.stopCommand, ProbeKey.target, h]

/-- The PMU disable step issues no registry command. -/
theorem disablePMU_no_probeCtl {π ρ : Type} (P : PMUOps π ρ) (u : π) :
    ∀ cmd file line probeName,
      Effect.probeCtl cmd file line probeName ∉ (Profile.disablePMU P u).2 := by
  intro cmd file line probeName
  unfold Profile.disablePMU Profile.disablePerfEvents Profile.disableGpPMU Profile.disableFixedPMU
  split_ifs <;> simp <;> split_ifs <;> simp

/-- Calls that are not registry commands leave the registry as it is. -/
theorem Registry.run_of_no_probeCtl {ρ : Type} (es : List (Effect ρ)) :
    ∀ r : Registry, (∀ cmd file line probeName, Effect.probeCtl cmd file line probeName ∉ es) →
      Registry.run r es = r := by
  induction es with
  | nil => intro r _; rfl
  | cons e es ih =>
    intro r h
    rw [Registry.run_cons]
    have he : Registry.apply r e = r := by
      cases e with
      | probeCtl cmd file line probeName =>
        exact absurd (List.mem_cons_self _ _) (h cmd file line probeName)
      | _ => rfl
    rw [he]
    exact ih r (fun cmd file line probeName hm =>
      h cmd file line probeName (List.mem_cons_of_mem _ hm))

/-- The commands of a session that activates one probe: the ENABLE command, the DISABLE
command of `stop`, then the PMU disable step. -/
theorem session_activate_effects {π ρ : Type} [LinearOrder ProbeKey] (P : PMUOps π ρ) (u : π)
    (k : ProbeKey) :
    (Profile.session P u [.activate k]).2 =
      [Effect.probeCtl .ENABLE k.file k.line (if k.name = "" then none else some k.name),
        Effect.probeCtl .DISABLE k.file k.line (if k.name = "" then none else some k.name)] ++
      (Profile.disablePMU P u).2 := by
  have hs : (insert k (∅ : Finset ProbeKey)).sort (fun a b => a ≤ b) = [k] := by
    rw [insert_emptyc_eq, Finset.sort_singleton]
  simp only [Profile.session, Profile.calls, Profile.call, Profile.activateProbe, Profile.new,
    Profile.stop, hs, List.map_cons, List.map_nil, stopCommand_eq, ProbeKey.target]
  simp

/-- The commands of a session that deactivates one probe: the DISABLE command, nothing
for `stop` to undo, then the PMU disable step. -/
theorem session_deactivate_effects {π ρ : Type} [LinearOrder ProbeKey] (P : PMUOps π ρ)
    (u : π) (k : ProbeKey) :
    (Profile.session P u [.deactivate k]).2 =
      [Effect.probeCtl .DISABLE k.file k.line (if k.name = "" then none else some k.name)] ++
      (Profile.disablePMU P u).2 := by
  simp [Profile.session, Profile.calls, Profile.call, Profile.deactivateProbe, Profile.new,
    Profile.stop]

/-- A registry command followed by calls that are no registry commands. -/
theorem Registry.run_commands_then_pmu {π ρ : Type} (P : PMUOps π ρ) (u : π) (r : Registry)
    (cmds : List (Effect ρ)) :
    Registry.run r (cmds ++ (Profile.disablePMU P u).2) = Registry.run r cmds := by
  rw [Registry.run_append, Registry.run_of_no_probeCtl _ _ (disablePMU_no_probeCtl P u)]

/-- Whatever was enabled before, a probe a session activates is disabled once the
session has stopped. -/
theorem session_activate_disables {π ρ : Type} [LinearOrder ProbeKey] (P : PMUOps π ρ)
    (u : π) (r0 : Registry) (k : ProbeKey) :
    Registry.run r0 (Profile.session P u [.activate k]).2 k = false := by
  rw [session_activate_effects, Registry.run_commands_then_pmu]
  by_cases hn : k.name = "" <;>
    simp [Registry.run, Registry.apply, Registry.probeCtl, Registry.addresses, hn]

/-- Claim C4 fails on the code: with the unnamed probe at `a.cpp:10` enabled before the
session, a session that activates it, or one that deactivates it, leaves it disabled after
`stop()`; with the probe `foo` at `a.cpp:10` enabled before, a session that activates the
unnamed key at `a.cpp:10` leaves `foo` disabled after `stop()`. The header of `Profile.H`
promises the original state back. -/
theorem session_disables_preenabled :
    onlyEnabled ⟨"", "a.cpp", 10⟩ ⟨"", "a.cpp", 10⟩ = true ∧
    Registry.run (onlyEnabled ⟨"", "a.cpp", 10⟩)
      (@Profile.session Unit Unit ProbeKey.lexOrder idlePMU ()
        [.activate ⟨"", "a.cpp", 10⟩]).2 ⟨"", "a.cpp", 10⟩ = false ∧
    Registry.run (onlyEnabled ⟨"", "a.cpp", 10⟩)
      (@Profile.session Unit Unit ProbeKey.lexOrder idlePMU ()
        [.deactivate ⟨"", "a.cpp", 10⟩]).2 ⟨"", "a.cpp", 10⟩ = false ∧
    onlyEnabled ⟨"foo", "a.cpp", 10⟩ ⟨"foo", "a.cpp", 10⟩ = true ∧
    Registry.run (onlyEnabled ⟨"foo", "a.cpp", 10⟩)
      (@Profile.session Unit Unit ProbeKey.lexOrder idlePMU ()
        [.activate ⟨"", "a.cpp", 10⟩]).2 ⟨"foo", "a.cpp", 10⟩ = false := by
  refine ⟨by decide, ?_, ?_, by decide, ?_⟩
  · rw [@session_activate_effects Unit Unit ProbeKey.lexOrder, Registry.run_commands_then_pmu]
    simp [Registry.run, Registry.apply, Registry.probeCtl, Registry.addresses]
  · rw [@session_deactivate_effects Unit Unit ProbeKey.lexOrder, Registry.run_commands_then_pmu]
    simp [Registry.run, Registry.apply, Registry.probeCtl, Registry.addresses]
  · rw [@session_activate_effects Unit Unit ProbeKey.lexOrder, Registry.run_commands_then_pmu]
    simp [Registry.run, Registry.apply, Registry.probeCtl, Registry.addresses]

/-- Claim C5: after `activateProbe(k)` the recorded set contains `k`, after
`deactivateProbe(k)` it does not, membership of every other key is unchanged, and the one
registry command issued is ENABLE, respectively DISABLE, for the file and line of `k` with
its name, an empty name being passed as no name. -/
theorem probe_call_spec {ρ : Type} [DecidableEq ProbeKey] (p : Profile) (k : ProbeKey) :
    k ∈ (p.activateProbe k : Profile × List (Effect ρ)).1.activeProbes ∧
    k ∉ (p.deactivateProbe k : Profile × List (Effect ρ)).1.activeProbes ∧
    (∀ j, j ≠ k →
      (j ∈ (p.activateProbe k : Profile × List (Effect ρ)).1.activeProbes ↔
        j ∈ p.activeProbes) ∧
      (j ∈ (p.deactivateProbe k : Profile × List (Effect ρ)).1.activeProbes ↔
        j ∈ p.activeProbes)) ∧
    (k.name ≠ "" →
      (p.activateProbe k : Profile × List (Effect ρ)).2
        = [.probeCtl .ENABLE k.file k.line (some k.name)] ∧
      (p.deactivateProbe k : Profile × List (Effect ρ)).2
        = [.probeCtl .DISABLE k.file k.line (some k.name)]) ∧
    (k.name = "" →
      (p.activateProbe k : Profile × List (Effect ρ)).2
        = [.probeCtl .ENABLE k.file k.line none] ∧
      (p.deactivateProbe k : Profile × List (Effect ρ)).2
        = [.probeCtl .DISABLE k.file k.line none]) := by
  refine ⟨by simp [Profile.activateProbe], by simp [Profile.deactivateProbe], ?_, ?_, ?_⟩
  · intro j hj
    simp [Profile.activateProbe, Profile.deactivateProbe, hj]
  · intro hn
    simp [Profile.activateProbe, Profile.deactivateProbe, hn]
  · intro hn
    simp [Profile.activateProbe, Profile.deactivateProbe, hn]

/-- Claim C6: `stop()` issues one DISABLE command for each key of the recorded set, each
exactly once and none for any other key, and only then the calls of the PMU disable step,
which issues no registry command itself. -/
theorem stop_spec {π ρ : Type} [LinearOrder ProbeKey] (P : PMUOps π ρ) (p : Profile) (u : π) :
    ∃ keys : List ProbeKey,
      keys.Nodup ∧ (∀ k, k ∈ keys ↔ k ∈ p.activeProbes) ∧
      (Profile.stop P p u).2 =
        keys.map (fun k => Effect.probeCtl .DISABLE k.file k.line
          (if k.name = "" then none else some k.name)) ++ (Profile.disablePMU P u).2 ∧
      (keys.map (fun k => (Effect.probeCtl .DISABLE k.file k.line
          (if k.name = "" then none else some k.name) : Effect ρ))).Nodup ∧
      (∀ cmd file line probeName,
        Effect.probeCtl cmd file line probeName ∉ (Profile.disablePMU P u).2) ∧
      (Profile.stop P p u).1 = (Profile.disablePMU P u).1 := by
  have hfun : (fun k : ProbeKey => (Effect.probeCtl .DISABLE k.file k.line
      (if k.name = "" then none else some k.name) : Effect ρ)) = Profile.stopCommand := by
    funext k
    rw [stopCommand_eq]
    rfl
  refine ⟨p.activeProbes.sort (fun a b => a ≤ b), Finset.sort_nodup _ _,
    fun k => Finset.mem_sort _, ?_, ?_, disablePMU_no_probeCtl P u, rfl⟩
  · rw [hfun]; rfl
  · rw [hfun]
    refine List.Nodup.map ?_ (Finset.sort_nodup _ _)
    intro a b hab
    rw [stopCommand_eq, stopCommand_eq] at hab
    injection hab with _ h1 h2 h3
    exact ProbeKey.target_injective (Prod.ext h1 (Prod.ext h2 h3))

/-! ### Session guards and rollback -/

/-- Claim C7: destroying a `SessionGuard` executes exactly one EndProfile request when the
guard is alive and a framework is installed, and none otherwise; a guard that is not alive
(already destroyed, default-constructed, error-constructed or moved-from) issues no
request; `profile()` without an installed framework returns a guard that is not alive with
errors "Invalid Session". -/
theorem SessionGuard_destroy_spec {σ ρ : Type} (E : SessionOps σ ρ)
    (framework : Option (Framework σ)) (g : SessionGuard) :
    (SessionGuard.destroy E framework g).2.2 =
      (if g.isAlive = true ∧ framework.isSome = true then [.profileDeactivation] else []) ∧
    (∀ fw, framework = some fw → g.isAlive = true →
      (SessionGuard.destroy E framework g).1 =
        some { fw with sessionManager :=
          { fw.sessionManager with
            env := (E.localExecute fw.sessionManager.env .profileDeactivation 0).1 } }) ∧
    (g.isAlive = false → SessionGuard.destroy E framework g = (framework, g, [])) ∧
    (SessionGuard.destroy E framework (SessionGuard.destroy E framework g).2.1).2.2 = [] ∧
    (SessionGuard.destroy E framework SessionGuard.invalid).2.2 = [] ∧
    (∀ errors, (SessionGuard.destroy E framework (SessionGuard.ofErrors errors)).2.2 = []) ∧
    (SessionGuard.destroy E framework (SessionGuard.moveConstruct g).2).2.2 = [] ∧
    (∀ (eventCount : ρ → Nat) (tmpl : String) (info : ProfileInfo ρ),
      profile E eventCount tmpl none info =
        (none, { isAlive := false, errors := "Invalid Session" }, [])) := by
  cases framework with
  | none =>
    simp [SessionGuard.destroy, SessionGuard.invalid, SessionGuard.ofErrors, profile]
  | some fw =>
    cases hg : g.isAlive <;>
      simp [SessionGuard.destroy, SessionGuard.destroyWith, SessionGuard.invalid,
        SessionGuard.ofErrors, SessionGuard.moveConstruct, profile, hg, Framework.endProfile,
        SessionManager.execute]

/-- The framework `beginProfile` leaves behind, by cases on the outcome of each step: only
the collaborators' state moves, through the requests executed, the EndProfile request of a
rollback included. -/
theorem beginProfile_framework {σ ρ : Type} (E : SessionOps σ ρ) (eventCount : ρ → Nat)
    (tmpl : String) (this : Framework σ) (info : ProfileInfo ρ) :
    (Framework.beginProfile E eventCount tmpl this info).1.sessionManager.sessionType =
      this.sessionManager.sessionType ∧
    (Framework.beginProfile E eventCount tmpl this info).1.canRun = this.canRun ∧
    (Framework.beginProfile E eventCount tmpl this info).1.sessionManager.env =
        if (E.localExecute this.sessionManager.env (.probeActivation info.probes) 0).2.1 = true then
          if (eventCount info.pmuRequest ≠ 0) then
            if (E.localExecute
                  (E.localExecute this.sessionManager.env (.probeActivation info.probes) 0).1
                  (.perfEventsActivation info.pmuRequest) 0).2.1 = true then
              if (E.localExecute
                    (E.localExecute
                      (E.localExecute this.sessionManager.env (.probeActivation info.probes) 0).1
                      (.perfEventsActivation info.pmuRequest) 0).1
                    (.profileActivation tmpl 1 info.samplesDataCapacity) 0).2.1 = true then
                (E.localExecute
                    (E.localExecute
                      (E.localExecute this.sessionManager.env (.probeActivation info.probes) 0).1
                      (.perfEventsActivation info.pmuRequest) 0).1
                    (.profileActivation tmpl 1 info.samplesDataCapacity) 0).1
              else
                executeEndProfile E (E.localExecute
                    (E.localExecute
                      (E.localExecute this.sessionManager.env (.probeActivation info.probes) 0).1
                      (.perfEventsActivation info.pmuRequest) 0).1
                    (.profileActivation tmpl 1 info.samplesDataCapacity) 0).1
            else
              executeEndProfile E (E.localExecute
                  (E.localExecute this.sessionManager.env (.probeActivation info.probes) 0).1
                  (.perfEventsActivation info.pmuRequest) 0).1
          else
            if (E.localExecute
                  (E.localExecute this.sessionManager.env (.probeActivation info.probes) 0).1
                  (.profileActivation tmpl 1 info.samplesDataCapacity) 0).2.1 = true then
              (E.localExecute
                  (E.localExecute this.sessionManager.env (.probeActivation info.probes) 0).1
                  (.profileActivation tmpl 1 info.samplesDataCapacity) 0).1
            else
              executeEndProfile E (E.localExecute
                  (E.localExecute this.sessionManager.env (.probeActivation info.probes) 0).1
                  (.profileActivation tmpl 1 info.samplesDataCapacity) 0).1
        else
          (E.localExecute this.sessionManager.env (.probeActivation info.probes) 0).1 := by
  unfold Framework.beginProfile
  simp only [activateProfile_eq, SessionManager.execute, executeEndProfile]
  by_cases h1 : (E.localExecute this.sessionManager.env (.probeActivation info.probes) 0).2.1 = true
  · by_cases hp : eventCount info.pmuRequest = 0
    · by_cases h3 : (E.localExecute
                (E.localExecute this.sessionManager.env (.probeActivation info.probes) 0).1
                (.profileActivation tmpl 1 info.samplesDataCapacity) 0).2.1 = true
      · simp [h1, hp, h3]
      · simp [h1, hp, h3, Framework.endProfile, SessionManager.execute]
    · by_cases h2 : (E.localExecute
                (E.localExecute this.sessionManager.env (.probeActivation info.probes) 0).1
                (.perfEventsActivation info.pmuRequest) 0).2.1 = true
      · by_cases h3 : (E.localExecute
                  (E.localExecute
                    (E.localExecute this.sessionManager.env (.probeActivation info.probes) 0).1
                    (.perfEventsActivation info.pmuRequest) 0).1
                  (.profileActivation tmpl 1 info.samplesDataCapacity) 0).2.1 = true
        · simp [h1, hp, h2, h3]
        · simp [h1, hp, h2, h3, Framework.endProfile, SessionManager.execute]
      · simp [h1, hp, h2, SessionGuard.destroyWith, SessionGuard.ofAlive, Framework.endProfile,
          SessionManager.execute]
  · simp [h1]

/-- Claim C8: when probe activation succeeds and the perf-events request or the profile
activation request fails, `Framework::beginProfile` executes exactly one EndProfile request,
as its last request and on the state the failing request left, and returns a guard that
is not alive with a non-empty error string; when every step succeeds the guard returned
is alive, no EndProfile request is executed and the state is the one the profile
activation left. Session type and run flag are never touched. -/
theorem beginProfile_rollback {σ ρ : Type} (E : SessionOps σ ρ) (eventCount : ρ → Nat)
    (tmpl : String) (this : Framework σ) (info : ProfileInfo ρ) :
    let r1 := E.localExecute this.sessionManager.env (.probeActivation info.probes) 0
    let perf : Prop := eventCount info.pmuRequest ≠ 0
    let r2 := E.localExecute r1.1 (.perfEventsActivation info.pmuRequest) 0
    let env2 := if eventCount info.pmuRequest ≠ 0 then r2.1 else r1.1
    let r3 := E.localExecute env2 (.profileActivation tmpl 1 info.samplesDataCapacity) 0
    let out := Framework.beginProfile E eventCount tmpl this info
    (r1.2.1 = true →
      ((perf ∧ r2.2.1 = false) ∨ ((perf → r2.2.1 = true) ∧ r3.2.1 = false)) →
        out.2.2.countP Request.isDeactivation = 1 ∧
        out.2.2.getLast? = some .profileDeactivation ∧
        out.2.1.isAlive = false ∧ out.2.1.errors ≠ "") ∧
    (r1.2.1 = true → (perf → r2.2.1 = true) → r3.2.1 = true →
        out.2.1.isAlive = true ∧ out.2.2.countP Request.isDeactivation = 0) ∧
    (r1.2.1 = true → perf → r2.2.1 = false →
        out.1.sessionManager.env = executeEndProfile E r2.1 ∧
        out.2.2 = [.probeActivation info.probes, .perfEventsActivation info.pmuRequest,
          .profileDeactivation]) ∧
    (r1.2.1 = true → (perf → r2.2.1 = true) → r3.2.1 = false →
        out.1.sessionManager.env = executeEndProfile E r3.1 ∧
        out.2.2 = (if eventCount info.pmuRequest ≠ 0 then
            [.probeActivation info.probes, .perfEventsActivation info.pmuRequest]
          else [.probeActivation info.probes]) ++
          [.profileActivation tmpl 1 info.samplesDataCapacity, .profileDeactivation]) ∧
    (r1.2.1 = true → (perf → r2.2.1 = true) → r3.2.1 = true →
        out.1.sessionManager.env = r3.1) ∧
    (r1.2.1 = false →
        out.1.sessionManager.env = r1.1 ∧ out.2.2 = [.probeActivation info.probes] ∧
        out.2.1.isAlive = false ∧ out.2.1.errors ≠ "") ∧
    out.1.sessionManager.sessionType = this.sessionManager.sessionType ∧
    out.1.canRun = this.canRun := by
  intro r1 perf r2 env2 r3 out
  have hout : out.2 = _ := beginProfile_out E eventCount tmpl this info
  obtain ⟨hty, hrun, henv⟩ := beginProfile_framework E eventCount tmpl this info
  refine ⟨?_, ?_, ?_, ?_, ?_, ?_, hty, hrun⟩
  · intro h1 hfail
    rw [if_pos h1] at hout
    by_cases hp : eventCount info.pmuRequest = 0
    · have hnp : ¬ perf := fun h => h hp
      rcases hfail with ⟨hp', _⟩ | ⟨_, h3⟩
      · exact absurd hp' hnp
      · have h3' : r3.2.1 = false := h3
        simp only [r3, env2, hp, ne_eq, not_true_eq_false, if_false] at h3'
        simp only [hp, ne_eq, not_true_eq_false, if_false, h3', Bool.false_eq_true] at hout
        rw [hout]
        refine ⟨by simp [List.countP_cons, Request.isDeactivation], by simp, rfl, ?_⟩
        exact append_ne_empty _ _ (by decide)
    · have hp1 : eventCount info.pmuRequest ≠ 0 := hp
      rw [if_pos hp1] at hout
      rcases hfail with ⟨_, h2⟩ | ⟨hp2, h3⟩
      · have h2' : r2.2.1 = false := h2
        simp only [r2, r1] at h2'
        simp only [h2', Bool.false_eq_true, if_false] at hout
        rw [hout]
        refine ⟨by simp [List.countP_cons, Request.isDeactivation], by simp, rfl, ?_⟩
        exact append_ne_empty _ _ (by decide)
      · have h2' : r2.2.1 = true := hp2 hp1
        have h3' : r3.2.1 = false := h3
        simp only [r3, env2, if_pos hp1, r2, r1] at h3'
        simp only [r2, r1] at h2'
        simp only [h2', if_true, h3', Bool.false_eq_true, if_false] at hout
        rw [hout]
        refine ⟨by simp [List.countP_cons, Request.isDeactivation], by simp, rfl, ?_⟩
        exact append_ne_empty _ _ (by decide)
  · intro h1 h2 h3
    rw [if_pos h1] at hout
    by_cases hp : eventCount info.pmuRequest = 0
    · have h3' : r3.2.1 = true := h3
      simp only [r3, env2, hp, ne_eq, not_true_eq_false, if_false] at h3'
      simp only [hp, ne_eq, not_true_eq_false, if_false, h3', if_true] at hout
      rw [hout]
      exact ⟨rfl, by simp [List.countP_cons, Request.isDeactivation]⟩
    · have hp1 : eventCount info.pmuRequest ≠ 0 := hp
      rw [if_pos hp1] at hout
      have h2' : r2.2.1 = true := h2 hp1
      have h3' : r3.2.1 = true := h3
      simp only [r3, env2, if_pos hp1, r2, r1] at h3'
      simp only [r2, r1] at h2'
      simp only [h2', if_true, h3'] at hout
      rw [hout]
      exact ⟨rfl, by simp [List.countP_cons, Request.isDeactivation]⟩
  · intro h1 hp h2
    have hp1 : eventCount info.pmuRequest ≠ 0 := hp
    have h2' : r2.2.1 = false := h2
    simp only [r2, r1] at h2'
    rw [if_pos h1, if_pos hp1] at hout henv
    simp only [h2', Bool.false_eq_true, if_false] at hout henv
    exact ⟨henv, by rw [hout]⟩
  · intro h1 h2 h3
    rw [if_pos h1] at hout henv
    by_cases hp : eventCount info.pmuRequest = 0
    · have h3' : r3.2.1 = false := h3
      simp only [r3, env2, hp, ne_eq, not_true_eq_false, if_false] at h3'
      simp only [hp, ne_eq, not_true_eq_false, if_false, h3', Bool.false_eq_true] at hout henv
      refine ⟨?_, by rw [hout]; simp [hp]⟩
      simp only [r3, env2, hp, ne_eq, not_true_eq_false, if_false]
      exact henv
    · have hp1 : eventCount info.pmuRequest ≠ 0 := hp
      rw [if_pos hp1] at hout henv
      have h2' : r2.2.1 = true := h2 hp1
      have h3' : r3.2.1 = false := h3
      simp only [r3, env2, if_pos hp1, r2, r1] at h3'
      simp only [r2, r1] at h2'
      simp only [h2', if_true, h3', Bool.false_eq_true, if_false] at hout henv
      refine ⟨?_, by rw [hout]; simp [hp]⟩
      simp only [r3, env2, if_pos hp1, r2, r1]
      exact henv
  · intro h1 h2 h3
    rw [if_pos h1] at henv
    by_cases hp : eventCount info.pmuRequest = 0
    · have h3' : r3.2.1 = true := h3
      simp only [r3, env2, hp, ne_eq, not_true_eq_false, if_false] at h3'
      simp only [hp, ne_eq, not_true_eq_false, if_false, h3', if_true] at henv
      simp only [r3, env2, hp, ne_eq, not_true_eq_false, if_false]
      exact henv
    · have hp1 : eventCount info.pmuRequest ≠ 0 := hp
      rw [if_pos hp1] at henv
      have h2' : r2.2.1 = true := h2 hp1
      have h3' : r3.2.1 = true := h3
      simp only [r3, env2, if_pos hp1, r2, r1] at h3'
      simp only [r2, r1] at h2'
      simp only [h2', if_true, h3'] at henv
      simp only [r3, env2, if_pos hp1, r2, r1]
      exact henv
  · intro h1
    have h1' : ¬ ((E.localExecute this.sessionManager.env (.probeActivation info.probes) 0).2.1
        = true) := by
      have : r1.2.1 = false := h1
      simp only [r1] at this
      simp [this]
    rw [if_neg h1'] at hout henv
    refine ⟨henv, by rw [hout], by rw [hout]; rfl, ?_⟩
    rw [hout]
    exact append_ne_empty _ _ (by decide)

/-! ### Responses -/

/-- Claim C9: executing a `ProfileActivationRequest`, `ProfileDeactivationRequest` or
`PerfEventsActivationRequest` calls exactly one of the response's setters: the value is set
to the empty string when the handler reports success, the error is set when it reports
failure (to the handler's string for the two profile requests), the other slot is left as
it was; on the response of a request not yet executed exactly one of value and error is
set afterwards, the error exactly when the handler reported failure. -/
theorem request_response_spec {η ρ : Type} (H : HandlerOps η ρ) (handler : η)
    (response : Response) (pattern : String) (interval : MilliSeconds) (capacity : Nat)
    (request : ρ) :
    -- ProfileActivationRequest
    ((H.beginProfile handler pattern interval capacity).2 = "" →
      (ProfileActivationRequest.execute H pattern interval capacity handler response).2
        = { value := some "", errors := response.errors }) ∧
    ((H.beginProfile handler pattern interval capacity).2 ≠ "" →
      (ProfileActivationRequest.execute H pattern interval capacity handler response).2
        = { value := response.value,
            errors := some (H.beginProfile handler pattern interval capacity).2 }) ∧
    -- ProfileDeactivationRequest
    ((H.endProfile handler).2 = "" →
      (ProfileDeactivationRequest.execute H handler response).2
        = { value := some "", errors := response.errors }) ∧
    ((H.endProfile handler).2 ≠ "" →
      (ProfileDeactivationRequest.execute H handler response).2
        = { value := response.value, errors := some (H.endProfile handler).2 }) ∧
    -- PerfEventsActivationRequest
    ((H.enablePerfEvents handler request).2 = true →
      (PerfEventsActivationRequest.execute H request handler response).2
        = { value := some "", errors := response.errors }) ∧
    ((H.enablePerfEvents handler request).2 = false →
      (PerfEventsActivationRequest.execute H request handler response).2
        = { value := response.value,
            errors := some
              "Failed to enable perf events - check target app stdout for more details." }) ∧
    -- on the response of a request not yet executed, exactly one of the two is set
    (((ProfileActivationRequest.execute H pattern interval capacity handler Response.new).2.value.isSome
        = !(ProfileActivationRequest.execute H pattern interval capacity handler
              Response.new).2.errors.isSome) ∧
     ((ProfileDeactivationRequest.execute H handler Response.new).2.value.isSome
        = !(ProfileDeactivationRequest.execute H handler Response.new).2.errors.isSome) ∧
     ((PerfEventsActivationRequest.execute H request handler Response.new).2.value.isSome
        = !(PerfEventsActivationRequest.execute H request handler Response.new).2.errors.isSome)) ∧
    ((ProfileActivationRequest.execute H pattern interval capacity handler Response.new).2.errors.isSome
        = true ↔ (H.beginProfile handler pattern interval capacity).2 ≠ "") ∧
    ((ProfileDeactivationRequest.execute H handler Response.new).2.errors.isSome = true ↔
        (H.endProfile handler).2 ≠ "") ∧
    ((PerfEventsActivationRequest.execute H request handler Response.new).2.errors.isSome = true ↔
        (H.enablePerfEvents handler request).2 = false) := by
  refine ⟨?_, ?_, ?_, ?_, ?_, ?_, ⟨?_, ?_, ?_⟩, ?_, ?_, ?_⟩
  · intro h; simp [ProfileActivationRequest.execute, h, Response.setValue]
  · intro h; simp [ProfileActivationRequest.execute, h, Response.setErrors]
  · intro h; simp [ProfileDeactivationRequest.execute, h, Response.setValue]
  · intro h; simp [ProfileDeactivationRequest.execute, h, Response.setErrors]
  · intro h; simp [PerfEventsActivationRequest.execute, h, Response.setValue]
  · intro h; simp [PerfEventsActivationRequest.execute, h, Response.setErrors]
  · by_cases h : (H.beginProfile handler pattern interval capacity).2 = "" <;>
      simp [ProfileActivationRequest.execute, h, Response.setValue, Response.setErrors,
        Response.new]
  · by_cases h : (H.endProfile handler).2 = "" <;>
      simp [ProfileDeactivationRequest.execute, h, Response.setValue, Response.setErrors,
        Response.new]
  · cases h : (H.enablePerfEvents handler request).2 <;>
      simp [PerfEventsActivationRequest.execute, h, Response.setValue, Response.setErrors,
        Response.new]
  · by_cases h : (H.beginProfile handler pattern interval capacity).2 = "" <;>
      simp [ProfileActivationRequest.execute, h, Response.setValue, Response.setErrors,
        Response.new]
  · by_cases h : (H.endProfile handler).2 = "" <;>
      simp [ProfileDeactivationRequest.execute, h, Response.setValue, Response.setErrors,
        Response.new]
  · cases h : (H.enablePerfEvents handler request).2 <;>
      simp [PerfEventsActivationRequest.execute, h, Response.setValue, Response.setErrors,
        Response.new]

/-! ### Halting -/

/-- Claim C10: `halt()` returns the value of the run flag before the call and leaves it
false: on a running framework it returns true and `isRunning()` is false afterwards, every
later `halt()` returns false, and `halt()` returns false when no framework is installed. -/
theorem halt_spec {σ : Type} (framework : Option (Framework σ)) (fw : Framework σ) (n : Nat) :
    (halt (some fw)).2 = fw.canRun ∧
    isRunning (halt (some fw)).1 = false ∧
    (fw.canRun = true → (halt (some fw)).2 = true) ∧
    (halt ((fun s => (halt s).1)^[n + 1] framework)).2 = false ∧
    isRunning ((fun s => (halt s).1)^[n + 1] framework) = false ∧
    (halt (none : Option (Framework σ))).2 = false := by
  have key : ∀ s : Option (Framework σ), isRunning s = false → (halt s).2 = false ∧
      isRunning (halt s).1 = false := by
    intro s hs
    cases s with
    | none => simp [halt, isRunning]
    | some f => simpa [halt, isRunning, Framework.halt, Framework.isRunning] using hs
  have first : ∀ s : Option (Framework σ), isRunning (halt s).1 = false := by
    intro s
    cases s with
    | none => simp [halt, isRunning]
    | some f => simp [halt, isRunning, Framework.halt, Framework.isRunning]
  have iter : ∀ k : Nat, isRunning ((fun s => (halt s).1)^[k + 1] framework) = false := by
    intro k
    induction k with
    | zero => exact first framework
    | succ k ih =>
      rw [Function.iterate_succ_apply']
      exact (key _ ih).2
  refine ⟨rfl, first (some fw), fun h => h, (key _ (iter n)).1, iter n, rfl⟩

/-! ### Thread initialisation -/

/-- Once the flag of a thread is set, further calls in it return false and do nothing. -/
theorem initializeThreadTimes_of_set {σ β : Type} (expand : β → β) (tid : ThreadId) (k : Nat) :
    ∀ p : Process σ β, p.threadInitFlag tid = true →
      initializeThreadTimes expand tid k p = (p, List.replicate k false, []) := by
  induction k with
  | zero => intro p _; rfl
  | succ k ih =>
    intro p h
    simp [initializeThreadTimes, initializeThread, h, ih p h, List.replicate_succ]

/-- Claim C11: for every thread whose flag is not yet set and every `k ≥ 1`, `k` calls of
`initializeThread()` in that thread call `SamplesBuffer::expand()` exactly once: the first
call returns true and performs the expansion, every later call returns false and
performs none; the flags of the other threads are not touched. -/
theorem initializeThread_once {σ β : Type} (expand : β → β) (tid : ThreadId)
    (p : Process σ β) (k : Nat) (hk : 1 ≤ k) (h : p.threadInitFlag tid = false) :
    (initializeThreadTimes expand tid k p).2.1 = true :: List.replicate (k - 1) false ∧
    (initializeThreadTimes expand tid k p).2.2 = [.expand tid] ∧
    (initializeThreadTimes expand tid k p).1.samplesBuffers = expand p.samplesBuffers ∧
    (initializeThreadTimes expand tid k p).1.threadInitFlag tid = true ∧
    (∀ t, t ≠ tid →
      (initializeThreadTimes expand tid k p).1.threadInitFlag t = p.threadInitFlag t) := by
  obtain ⟨n, rfl⟩ : ∃ n, k = n + 1 := ⟨k - 1, by omega⟩
  have hset : ∀ q : Process σ β, q.threadInitFlag tid = true →
      initializeThreadTimes expand tid n q = (q, List.replicate n false, []) :=
    initializeThreadTimes_of_set expand tid n
  have h1 : initializeThread expand tid p =
      ({ p with
          samplesBuffers := expand p.samplesBuffers,
          threadInitFlag := fun t => if t = tid then true else p.threadInitFlag t },
        true, [.expand tid]) := by
    simp [initializeThread, h]
  simp only [initializeThreadTimes, h1]
  rw [hset _ (by simp)]
  refine ⟨by simp, by simp, rfl, by simp, ?_⟩
  intro t ht
  simp [ht]

/-- Claim C11 at a concrete input: three calls in thread 7 of a fresh process. -/
theorem initializeThread_once_witness :
    1 ≤ 3 ∧ (Process.start () : Process Unit Unit).threadInitFlag 7 = false ∧
    (initializeThreadTimes id 7 3 (Process.start () : Process Unit Unit)).2.1
      = true :: List.replicate (3 - 1) false ∧
    (initializeThreadTimes id 7 3 (Process.start () : Process Unit Unit)).2.2 = [.expand 7] :=
  ⟨by decide, rfl,
    (initializeThread_once id 7 (Process.start () : Process Unit Unit) 3 (by decide) rfl).1,
    (initializeThread_once id 7 (Process.start () : Process Unit Unit) 3 (by decide) rfl).2.1⟩

/-! ### Sample file headers -/

/-- Claim C12: a `FileHeader` built by its constructor has signature `0xC01DC01DC0FFEEEE`
and version `0x0200`, is valid, returns the given time, `tscHz` (a `uint64_t`) and
`pmcCount` (a `uint32_t`), and counts the call sites as the list length modulo `2^32`; a
header whose signature or version differs is not valid; a `SegmentHeader` built by its
constructor has signature `0x5CA1AB1E887A57EF` and returns the given size and sequence
number (both `unsigned`) and time. -/
theorem headers_spec {κ : Type} (callSites : List κ) (time : Timeval) (tscHz pmcCount : Nat)
    (size seq : Nat) (h : FileHeader κ)
    (htsc : tscHz < 2 ^ 64) (hpmc : pmcCount < 2 ^ 32)
    (hsize : size < 2 ^ 32) (hseq : seq < 2 ^ 32) :
    (FileHeader.new callSites time tscHz pmcCount).signature = 0xC01DC01DC0FFEEEE ∧
    (FileHeader.new callSites time tscHz pmcCount).version = 0x0200 ∧
    (FileHeader.new callSites time tscHz pmcCount).isValid = true ∧
    (FileHeader.new callSites time tscHz pmcCount).time = time ∧
    (FileHeader.new callSites time tscHz pmcCount).tscHz = tscHz ∧
    (FileHeader.new callSites time tscHz pmcCount).pmcCount = pmcCount ∧
    (FileHeader.new callSites time tscHz pmcCount).callSites.2 = callSites.length % 2 ^ 32 ∧
    (h.signature ≠ 0xC01DC01DC0FFEEEE ∨ h.version ≠ 0x0200 → h.isValid = false) ∧
    (SegmentHeader.new time size seq).signature = 0x5CA1AB1E887A57EF ∧
    (SegmentHeader.new time size seq).size = size ∧
    (SegmentHeader.new time size seq).seq = seq ∧
    (SegmentHeader.new time size seq).time = time := by
  refine ⟨rfl, rfl, ?_, rfl, Nat.mod_eq_of_lt htsc, Nat.mod_eq_of_lt hpmc, rfl, ?_, rfl,
    Nat.mod_eq_of_lt hsize, Nat.mod_eq_of_lt hseq, rfl⟩
  · simp [FileHeader.isValid, FileHeader.new]
  · intro hne
    simp only [FileHeader.isValid, decide_eq_false_iff_not, not_and_or, XPEDITE_FILE_HDR_SIG,
      XPEDITE_VERSION]
    exact hne

/-- Claim C12 at a concrete input: two call sites, 2.4 GHz, 8 counters, a segment of 1000
samples with sequence number 0. -/
theorem headers_spec_witness :
    (2400000000 : Nat) < 2 ^ 64 ∧ (8 : Nat) < 2 ^ 32 ∧ (1000 : Nat) < 2 ^ 32 ∧
    (0 : Nat) < 2 ^ 32 ∧
    (FileHeader.new [(), ()] ⟨1700000000, 250⟩ 2400000000 8).isValid = true ∧
    (FileHeader.new [(), ()] ⟨1700000000, 250⟩ 2400000000 8).callSites.2 = 2 ∧
    (SegmentHeader.new ⟨1700000000, 250⟩ 1000 0).size = 1000 :=
  have w := headers_spec [(), ()] ⟨1700000000, 250⟩ 2400000000 8 1000 0
    (FileHeader.new [(), ()] ⟨1700000000, 250⟩ 2400000000 8)
    (by norm_num) (by norm_num) (by norm_num) (by norm_num)
  ⟨by norm_num, by norm_num, by norm_num, by norm_num, w.2.2.1, w.2.2.2.2.2.2.1,
    w.2.2.2.2.2.2.2.2.2.1⟩

/-! ### Poll interval of the loop -/

/-- Claim C13 fails when the handler holds an interval of 0: in the states `LOCAL` and
`REMOTE` `SessionManager::pollInterval` returns 0 ms, and an iteration of the loop of
`Framework::run` that ends in `LOCAL` sleeps for 0 ms. -/
theorem pollInterval_zero_counterexample :
    SessionManager.pollInterval (zeroIntervalOps true false) ⟨(), .LOCAL⟩ = 0 ∧
    SessionManager.pollInterval (zeroIntervalOps false true) ⟨(), .REMOTE⟩ = 0 ∧
    Framework.runIteration (zeroIntervalOps true false) false
        { sessionManager := ⟨(), .LOCAL⟩, canRun := true } false =
      ([.localPoll true true, .remotePoll false false, .handlerPoll],
        some ({ sessionManager := ⟨(), .LOCAL⟩, canRun := true }, false, 0)) :=
  ⟨rfl, rfl, rfl⟩

/-- Claim C13, amended: after a tick that leaves the session state other than `DORMANT`,
the interval `SessionManager::pollInterval` returns and the loop of `Framework::run` sleeps
for is the handler's interval as it is, with no minimum: it is at least 1 ms exactly when
the handler's interval is, and 0 ms when the handler's interval is 0. -/
theorem pollInterval_unclamped {σ ρ : Type} (E : SessionOps σ ρ) (ndebug : Bool)
    (fw : Framework σ) (promisePending : Bool) (t : List PollEvent) (m : SessionManager σ)
    (hpoll : SessionManager.poll E ndebug fw.sessionManager = (t, some m))
    (hs : m.sessionType ≠ .DORMANT) :
    SessionManager.pollInterval E m = E.handlerPollInterval m.env ∧
    (Framework.runIteration E ndebug fw promisePending).2.map (fun r => r.2.2) =
      some (E.handlerPollInterval m.env) ∧
    (1 ≤ SessionManager.pollInterval E m ↔ 1 ≤ E.handlerPollInterval m.env) ∧
    (E.handlerPollInterval m.env = 0 → SessionManager.pollInterval E m = 0) := by
  have hi : SessionManager.pollInterval E m = E.handlerPollInterval m.env := by
    simp [SessionManager.pollInterval, hs]
  refine ⟨hi, ?_, by rw [hi], fun h0 => by rw [hi, h0]⟩
  simp only [Framework.runIteration, hpoll, hi, Option.map_some']

/-- Claim C13, amended, at a concrete tick: a dormant manager whose local session has
work, the handler holding 1 ms. -/
theorem pollInterval_unclamped_witness :
    SessionManager.poll (constOps true false) false
        (Framework.new () : Framework Unit).sessionManager =
      ([.localPoll true true, .remotePoll false false, .handlerPoll], some ⟨(), .LOCAL⟩) ∧
    SessionType.LOCAL ≠ .DORMANT ∧
    SessionManager.pollInterval (constOps true false) ⟨(), .LOCAL⟩ = 1 :=
  ⟨rfl, by decide,
    (pollInterval_unclamped (constOps true false) false (Framework.new ()) true
      [.localPoll true true, .remotePoll false false, .handlerPoll] ⟨(), .LOCAL⟩ rfl
      (by decide)).1⟩

/-! ### Disabling the PMU -/

/-- Claim C14: for every PMU state `Profile::disablePMU`, when perf events are enabled,
calls `disablePerfEvents` and nothing else, leaving the state that call produces;
otherwise it calls `disableGenericPmc` exactly when the general-purpose count is non-zero,
then `disableFixedPmc` exactly when the fixed count it then reads is non-zero (the count at
entry, whenever disabling the general-purpose counters leaves the fixed count alone), and
never `disablePerfEvents`; the state it leaves is the one those calls produce, in that
order. It makes no other call. -/
theorem disablePMU_spec {π ρ : Type} (P : PMUOps π ρ) (u : π) :
    (P.perfEventsEnabled u = true →
      Profile.disablePMU P u = (P.disablePerfEvents u, [.disablePerfEvents])) ∧
    (P.perfEventsEnabled u = false →
      (Profile.disablePMU P u).1 =
        (if P.fixedPmcCount (if P.genericPmcCount u ≠ 0 then P.disableGenericPmc u else u) ≠ 0
          then P.disableFixedPmc (if P.genericPmcCount u ≠ 0 then P.disableGenericPmc u else u)
          else (if P.genericPmcCount u ≠ 0 then P.disableGenericPmc u else u)) ∧
      (Profile.disablePMU P u).2 =
        (if P.genericPmcCount u ≠ 0 then [Effect.disableGenericPmc] else []) ++
        (if P.fixedPmcCount (if P.genericPmcCount u ≠ 0 then P.disableGenericPmc u else u) ≠ 0
          then [Effect.disableFixedPmc] else []) ∧
      (Effect.disableGenericPmc ∈ (Profile.disablePMU P u).2 ↔ P.genericPmcCount u ≠ 0) ∧
      (Effect.disableFixedPmc ∈ (Profile.disablePMU P u).2 ↔
        P.fixedPmcCount (if P.genericPmcCount u ≠ 0 then P.disableGenericPmc u else u) ≠ 0) ∧
      Effect.disablePerfEvents ∉ (Profile.disablePMU P u).2 ∧
      (P.fixedPmcCount (P.disableGenericPmc u) = P.fixedPmcCount u →
        (Effect.disableFixedPmc ∈ (Profile.disablePMU P u).2 ↔ P.fixedPmcCount u ≠ 0))) ∧
    (∀ e ∈ (Profile.disablePMU P u).2,
      e = Effect.disablePerfEvents ∨ e = Effect.disableGenericPmc ∨
        e = Effect.disableFixedPmc) := by
  refine ⟨fun h => by simp [Profile.disablePMU, Profile.disablePerfEvents, h], ?_, ?_⟩
  · intro h
    have hgp : (Profile.disableGpPMU P u : π × List (Effect ρ)) =
        (if P.genericPmcCount u ≠ 0 then P.disableGenericPmc u else u,
          if P.genericPmcCount u ≠ 0 then [Effect.disableGenericPmc] else []) := by
      unfold Profile.disableGpPMU
      split_ifs <;> rfl
    have hfx : ∀ v : π, (Profile.disableFixedPMU P v : π × List (Effect ρ)) =
        (if P.fixedPmcCount v ≠ 0 then P.disableFixedPmc v else v,
          if P.fixedPmcCount v ≠ 0 then [Effect.disableFixedPmc] else []) := by
      intro v
      unfold Profile.disableFixedPMU
      split_ifs <;> rfl
    have hall : Profile.disablePMU P u =
        ((if P.fixedPmcCount (if P.genericPmcCount u ≠ 0 then P.disableGenericPmc u else u) ≠ 0
          then P.disableFixedPmc (if P.genericPmcCount u ≠ 0 then P.disableGenericPmc u else u)
          else (if P.genericPmcCount u ≠ 0 then P.disableGenericPmc u else u)),
        (if P.genericPmcCount u ≠ 0 then [Effect.disableGenericPmc] else []) ++
        (if P.fixedPmcCount (if P.genericPmcCount u ≠ 0 then P.disableGenericPmc u else u) ≠ 0
          then [Effect.disableFixedPmc] else [])) := by
      simp only [Profile.disablePMU, h, Bool.false_eq_true, if_false, hgp, hfx]
    refine ⟨by rw [hall], by rw [hall], ?_, ?_, ?_, ?_⟩
    · rw [hall]; split_ifs <;> simp_all
    · rw [hall]; split_ifs <;> simp_all
    · rw [hall]; split_ifs <;> simp
    · intro hind
      rw [hall]
      split_ifs <;> simp_all
  · intro e he
    unfold Profile.disablePMU Profile.disablePerfEvents Profile.disableGpPMU
      Profile.disableFixedPMU at he
    split_ifs at he <;> simp at he <;> (try split_ifs at he) <;> simp_all

/-! ### Moving session guards -/

/-- Destroying a pool while a framework is installed executes one EndProfile request per
alive guard, each on the state the one before left, and leaves no guard alive. -/
theorem destroyAll_installed {σ ρ : Type} (E : SessionOps σ ρ) (pool : List SessionGuard) :
    ∀ fw : Framework σ,
      (destroyAll E (some fw) pool : _ × _ × List (Request ρ)) =
        (some { fw with sessionManager := { fw.sessionManager with
            env := (@executeEndProfile σ ρ E)^[aliveCount pool] fw.sessionManager.env } },
          pool.map (fun g => { g with isAlive := false }),
          List.replicate (aliveCount pool) (Request.profileDeactivation : Request ρ)) := by
  induction pool with
  | nil => intro fw; rfl
  | cons g gs ih =>
    intro fw
    cases hg : g.isAlive
    · have hg' : ({ g with isAlive := false } : SessionGuard) = g := by
        cases g; simp_all
      simp [destroyAll, SessionGuard.destroy, SessionGuard.destroyWith, hg, ih fw, aliveCount,
        hg']
    · simp only [destroyAll, SessionGuard.destroy, SessionGuard.destroyWith, hg, if_true,
        Framework.endProfile, SessionManager.execute]
      rw [ih]
      simp [aliveCount, List.countP_cons, hg, List.replicate_succ, Function.iterate_succ_apply,
        executeEndProfile]

/-- Destroying a pool with no framework installed executes nothing and changes no guard. -/
theorem destroyAll_none {σ ρ : Type} (E : SessionOps σ ρ) (pool : List SessionGuard) :
    (destroyAll E (none : Option (Framework σ)) pool : _ × _ × List (Request ρ)) =
      (none, pool, []) := by
  induction pool with
  | nil => rfl
  | cons g gs ih => simp [destroyAll, SessionGuard.destroy, ih]

/-- A move leaves the number of alive guards of a pool as it was. -/
theorem perform_aliveCount (pool : List SessionGuard) (mv : GuardMove) :
    aliveCount (mv.perform pool) = aliveCount pool := by
  cases mv with
  | construct src =>
    cases hsrc : pool[src]? with
    | none => simp only [GuardMove.perform, hsrc]
    | some g =>
      simp only [GuardMove.perform, hsrc]
      obtain ⟨hlt, hget⟩ := List.getElem?_eq_some.1 hsrc
      have hle := List.boole_getElem_le_countP (fun g : SessionGuard => g.isAlive) pool src hlt
      simp only [aliveCount, SessionGuard.moveConstruct, List.countP_append,
        List.countP_set _ _ _ _ hlt, hget, List.countP_cons, List.countP_nil]
      rw [hget] at hle
      cases hg : g.isAlive <;>
        simp only [hg, Bool.false_eq_true, if_true, if_false] at hle ⊢ <;> omega
  | assign dst src =>
    cases hdst : pool[dst]? with
    | none => simp only [GuardMove.perform, hdst]
    | some a =>
      cases hsrc : pool[src]? with
      | none => simp only [GuardMove.perform, hdst, hsrc]
      | some b =>
        simp only [GuardMove.perform, hdst, hsrc]
        obtain ⟨hd, hda⟩ := List.getElem?_eq_some.1 hdst
        obtain ⟨hs, hsb⟩ := List.getElem?_eq_some.1 hsrc
        have hs2 : src < (pool.set dst { isAlive := b.isAlive, errors := b.errors }).length := by
          simpa using hs
        have hget2 : (pool.set dst { isAlive := b.isAlive, errors := b.errors })[src] = b := by
          rw [List.getElem_set]
          split_ifs with h
          · rfl
          · exact hsb
        have hle := List.boole_getElem_le_countP (fun g : SessionGuard => g.isAlive) pool dst hd
        rw [hda] at hle
        simp only [aliveCount, SessionGuard.moveAssign, List.countP_set _ _ _ _ hs2, hget2,
          List.countP_set _ _ _ _ hd, hda]
        cases ha : a.isAlive <;> cases hb : b.isAlive <;> 
          simp only [ha, hb, Bool.false_eq_true, if_true, if_false] at hle ⊢ <;> omega

/-- A sequence of moves leaves the number of alive guards of a pool as it was. -/
theorem moves_aliveCount (moves : List GuardMove) :
    ∀ pool : List SessionGuard,
      aliveCount (moves.foldl GuardMove.perform pool) = aliveCount pool := by
  induction moves with
  | nil => intro pool; rfl
  | cons mv mvs ih =>
    intro pool
    rw [List.foldl_cons, ih, perform_aliveCount]

/-- Claim C15: move construction gives the new guard the liveness and errors of the source
and leaves the source not alive with errors "Invalid Session"; move assignment exchanges
the two guards; either way the number of alive guards is conserved, so after every
sequence of moves on a pool, destroying all its guards with a framework installed executes
as many EndProfile requests as guards were alive before the moves, one after the other on
the session manager, and leaves every guard not alive (without a framework no request is
executed and no guard changes). -/
theorem guard_moves_conserve {σ ρ : Type} (E : SessionOps σ ρ) (fw : Framework σ)
    (pool : List SessionGuard) (moves : List GuardMove) (g h : SessionGuard) :
    (SessionGuard.moveConstruct g).1.isAlive = g.isAlive ∧
    (SessionGuard.moveConstruct g).1.errors = g.errors ∧
    (SessionGuard.moveConstruct g).2 = { isAlive := false, errors := "Invalid Session" } ∧
    (SessionGuard.moveAssign g h).1 = h ∧
    (SessionGuard.moveAssign g h).2 = g ∧
    aliveCount [(SessionGuard.moveConstruct g).1, (SessionGuard.moveConstruct g).2]
      = aliveCount [g] ∧
    aliveCount [(SessionGuard.moveAssign g h).1, (SessionGuard.moveAssign g h).2]
      = aliveCount [g, h] ∧
    aliveCount (moves.foldl GuardMove.perform pool) = aliveCount pool ∧
    (destroyAll E (some fw) (moves.foldl GuardMove.perform pool)).2.2 =
      List.replicate (aliveCount pool) (Request.profileDeactivation : Request ρ) ∧
    (destroyAll E (some fw) (moves.foldl GuardMove.perform pool) : _ × _ × List (Request ρ)).1 =
      some { fw with sessionManager := { fw.sessionManager with
        env := (@executeEndProfile σ ρ E)^[aliveCount pool] fw.sessionManager.env } } ∧
    (∀ d ∈ (destroyAll E (some fw) (moves.foldl GuardMove.perform pool) :
        _ × _ × List (Request ρ)).2.1, d.isAlive = false) ∧
    (destroyAll E (some fw) (moves.foldl GuardMove.perform pool) :
        _ × _ × List (Request ρ)).2.1.length = (moves.foldl GuardMove.perform pool).length ∧
    (destroyAll E (none : Option (Framework σ)) (moves.foldl GuardMove.perform pool) :
        _ × _ × List (Request ρ)) = (none, moves.foldl GuardMove.perform pool, []) := by
  have hd := destroyAll_installed E (moves.foldl GuardMove.perform pool) fw
  rw [moves_aliveCount] at hd
  refine ⟨rfl, rfl, rfl, rfl, rfl, ?_, ?_, moves_aliveCount moves pool, by rw [hd], by rw [hd],
    ?_, by rw [hd]; simp, destroyAll_none E _⟩
  · cases hg : g.isAlive <;> simp [aliveCount, SessionGuard.moveConstruct, hg]
  · cases hg : g.isAlive <;> cases hh : h.isAlive <;>
      simp [aliveCount, SessionGuard.moveAssign, hg, hh, List.countP_cons]
  · intro d hdm
    rw [hd] at hdm
    simp only [List.mem_map] at hdm
    obtain ⟨x, _, rfl⟩ := hdm
    rfl

/-! ### One-time initialisation -/

/-- A call of `initializeThread` executes no background-thread start and leaves the once
flag as it is. -/
theorem initializeThread_frame {σ β : Type} (expand : β → β) (tid : ThreadId)
    (p : Process σ β) :
    (initializeThread expand tid p).1.initFlag = p.initFlag ∧
    (initializeThread expand tid p).2.2.filter InitEvent.isSpawn = [] := by
  unfold initializeThread
  split_ifs <;> simp [InitEvent.isSpawn]

/-- Once the once flag is set, every call of the entry point returns false, starts no
thread and leaves the flag set. -/
theorem initializeAll_of_set {σ β : Type} (expand : β → β) (cs : List (InitCall σ)) :
    ∀ p : Process σ β, p.initFlag = true →
      (initializeAll expand cs p).2.1 = List.replicate cs.length false ∧
      (initializeAll expand cs p).2.2.filter InitEvent.isSpawn = [] ∧
      (initializeAll expand cs p).1.initFlag = true := by
  induction cs with
  | nil => intro p h; exact ⟨rfl, rfl, h⟩
  | cons c cs ih =>
    intro p h
    have hf := initializeThread_frame expand c.tid p
    have hinit : initializeWithListener expand c.start c.tid c.appInfoFile c.listenerIp
        c.awaitProfileBegin p =
        ((initializeThread expand c.tid p).1, false, (initializeThread expand c.tid p).2.2) := by
      simp [initializeWithListener, hf.1, h]
    obtain ⟨h1, h2, h3⟩ := ih (initializeThread expand c.tid p).1 (by rw [hf.1, h])
    simp only [initializeAll, hinit]
    refine ⟨by simp [h1, List.replicate_succ], ?_, h3⟩
    rw [List.filter_append, hf.2, h2]
    rfl

/-- Claim C16: in every sequence of calls of the initialisation entry point on a process
whose once flag is not set, only the first call starts the background thread, with its own
arguments; the first call returns whether the init future became ready within its timeout,
and every later call returns false whatever its arguments and whatever the first call
returned. -/
theorem initializeAll_once {σ β : Type} (expand : β → β) (c : InitCall σ)
    (cs : List (InitCall σ)) (p : Process σ β) (h : p.initFlag = false) :
    (initializeAll expand (c :: cs) p).2.1 =
      c.start.readyWithin (if c.awaitProfileBegin = true then 120 else 5) ::
        List.replicate cs.length false ∧
    (initializeAll expand (c :: cs) p).2.2.filter InitEvent.isSpawn =
      [.spawnThread c.appInfoFile c.listenerIp c.awaitProfileBegin] ∧
    (initializeAll expand (c :: cs) p).1.initFlag = true := by
  have hf := initializeThread_frame expand c.tid p
  have hflag : (initializeWithListener expand c.start c.tid c.appInfoFile c.listenerIp
      c.awaitProfileBegin p).1.initFlag = true := by
    simp only [initializeWithListener, hf.1, h, Bool.false_eq_true, if_false, initializeOnce]
    split_ifs <;> rfl
  have hrc : (initializeWithListener expand c.start c.tid c.appInfoFile c.listenerIp
      c.awaitProfileBegin p).2.1 =
      c.start.readyWithin (if c.awaitProfileBegin = true then 120 else 5) := by
    simp only [initializeWithListener, hf.1, h, Bool.false_eq_true, if_false, initializeOnce]
    cases hr : c.start.readyWithin (if c.awaitProfileBegin = true then 120 else 5) <;> simp
  have hev : (initializeWithListener expand c.start c.tid c.appInfoFile c.listenerIp
      c.awaitProfileBegin p).2.2.filter InitEvent.isSpawn =
      [.spawnThread c.appInfoFile c.listenerIp c.awaitProfileBegin] := by
    simp only [initializeWithListener, hf.1, h, Bool.false_eq_true, if_false, initializeOnce]
    split_ifs <;> simp [List.filter_append, hf.2, InitEvent.isSpawn]
  obtain ⟨h1, h2, h3⟩ := initializeAll_of_set expand cs _ hflag
  simp only [initializeAll]
  refine ⟨by rw [h1, hrc], ?_, h3⟩
  rw [List.filter_append, hev, h2]
  rfl

/-- Claim C16 at a concrete input: a first call that times out, then a second one. -/
theorem initializeAll_once_witness :
    (Process.start () : Process Unit Unit).initFlag = false ∧
    (initializeAll id
        [{ start := { framework := none, readyWithin := fun _ => false }, tid := 0,
           appInfoFile := "/tmp/app.info", listenerIp := "", awaitProfileBegin := false },
         { start := { framework := none, readyWithin := fun _ => true }, tid := 1,
           appInfoFile := "/tmp/other.info", listenerIp := "127.0.0.1",
           awaitProfileBegin := true }]
        (Process.start () : Process Unit Unit)).2.1 = [false, false] ∧
    (initializeAll id
        [{ start := { framework := none, readyWithin := fun _ => false }, tid := 0,
           appInfoFile := "/tmp/app.info", listenerIp := "", awaitProfileBegin := false },
         { start := { framework := none, readyWithin := fun _ => true }, tid := 1,
           appInfoFile := "/tmp/other.info", listenerIp := "127.0.0.1",
           awaitProfileBegin := true }]
        (Process.start () : Process Unit Unit)).2.2.filter InitEvent.isSpawn
      = [.spawnThread "/tmp/app.info" "" false] :=
  have w := initializeAll_once id
    { start := { framework := none, readyWithin := fun _ => false }, tid := 0,
      appInfoFile := "/tmp/app.info", listenerIp := "", awaitProfileBegin := false }
    [{ start := { framework := none, readyWithin := fun _ => true }, tid := 1,
       appInfoFile := "/tmp/other.info", listenerIp := "127.0.0.1",
       awaitProfileBegin := true }]
    (Process.start () : Process Unit Unit) rfl
  ⟨rfl, w.1, w.2.1⟩

end Xpedite
